import Mathlib

/-! FIDO smart dispenser: MQTT connectivity layer

Shallow embedding of `src/esp32_mqtt_dispenser/mqtt_connection.h` and
`src/esp32_mqtt_dispenser/fido_smart_dispenser/publish_with_type.h`.

Modelling conventions

* The C++ globals (`device_id`, the four per-device topics, `lastMQTTHeartbeat`,
  `lastDataSend`, `mqttConnected`, `wifiConnected`, `commandCallback`) are the
  fields of `Fido.State`.  `topic_discovery` and `device_name` are globals that
  no function assigns; they are constants here.
* Every value the platform returns to the program (`millis()`,
  `client.connected()`, `client.connect(..)`, `WiFi.localIP()`, the frames
  delivered by `client.loop()`) is an explicit input of the function that reads it.
* `unsigned long` is 32 bits wide on the ESP32: `millis()` returns the uptime
  modulo `2^32` and subtraction of two `unsigned long` wraps modulo `2^32`.
* `float` and `double` values are exact rationals (no rounding error, no NaN), except
  the level override `porcentajeLlenado` of the 6-argument `publishSensorData`, which is
  an `Arduino.CFloat` (a number, an infinity or NaN) and is rounded with the 32-bit
  `long` of the ESP32 (`Arduino.roundLong`).
* Calls the program makes on its collaborators (`client.publish`,
  `client.subscribe`, `client.connect`, the registered command callback, ...)
  are recorded, in program order, as a list of `Fido.Event`.  `Serial` output is
  logging only and is not recorded.
* An outgoing message is recorded as the JSON document that is serialised, not as
  the serialised text; the fixed capacities of the outgoing documents are not
  modelled.
-/

/-! ## Arduino core helpers (`Arduino.h`) -/

namespace Arduino

/-- The C cast `(long) r`: truncation toward zero. -/
def toLong (r : ℚ) : ℤ := if 0 ≤ r then Int.floor r else Int.ceil r

/-- Arduino `round(x)`: `((x) >= 0 ? (long)((x) + 0.5) : (long)((x) - 0.5))`,
rounding to the nearest integer with halves away from zero. -/
def round (x : ℚ) : ℤ := if 0 ≤ x then toLong (x + 1 / 2) else toLong (x - 1 / 2)

/-- Arduino `constrain(amt, low, high)`:
`((amt) < (low) ? (low) : ((amt) > (high) ? (high) : (amt)))`. -/
def constrain (amt low high : ℚ) : ℚ :=
  if amt < low then low else if amt > high then high else amt

/-- A C floating-point value: NaN, an infinity, or a number (an exact rational). -/
inductive CFloat where
  | nan
  | inf (negative : Bool)
  | num (q : ℚ)

/-- The least value of `long` (32 bits on the ESP32). -/
def LONG_MIN : ℤ := -2147483648

/-- The greatest value of `long` (32 bits on the ESP32). -/
def LONG_MAX : ℤ := 2147483647

/-- Arduino `round(x)` on an arbitrary float, with the 32-bit `long`: for a number whose
rounding fits `long` it is `Arduino.round`; in every other case (NaN, an infinity, a
rounding outside `long`) the cast `(long)` is undefined in C, and the result is
`undefinedLong x`, whatever the target yields there. -/
def roundLong (undefinedLong : CFloat → ℤ) : CFloat → ℤ
  | .num q =>
    if LONG_MIN ≤ Arduino.round q ∧ Arduino.round q ≤ LONG_MAX then Arduino.round q
    else undefinedLong (.num q)
  | x => undefinedLong x

end Arduino

namespace Fido

/-! ## ArduinoJson documents -/

/-- A JSON value as held by an ArduinoJson document. -/
inductive JsonValue where
  | null
  | bool (b : Bool)
  | int (n : ℤ)
  | float (q : ℚ)
  | str (s : String)
  | arr (xs : List JsonValue)
  | obj (kvs : List (String × JsonValue))

/-- A `JsonObject` handle: `none` is the null object, `some kvs` an object with
members `kvs`. -/
abbrev JsonObject := Option (List (String × JsonValue))

/-- The `doc[key]` accessor: `none` is the unbound variant (no such member, or the
document is not an object). -/
def JsonValue.get (doc : JsonValue) (key : String) : Option JsonValue :=
  match doc with
  | .obj kvs => (kvs.find? (fun kv => kv.1 == key)).map (fun kv => kv.2)
  | _ => none

/-- The `doc.containsKey(key)` test. -/
def JsonValue.containsKey (doc : JsonValue) (key : String) : Bool :=
  match doc with
  | .obj kvs => kvs.any (fun kv => kv.1 == key)
  | _ => false

/-- Conversion of a variant to `JsonObject` (`doc.as<JsonObject>()`, or the implicit
conversion in `data = doc["data"]`): the null object unless the variant is an object. -/
def asObject : Option JsonValue → JsonObject
  | some (.obj kvs) => some kvs
  | _ => none

/-- The parts of the ArduinoJson library the program calls, taken as parameters:
`deserializeJson capacity text` is `none` when decoding fails (malformed input, or
the input does not fit a `StaticJsonDocument<capacity>`), and `serializeJson` is
the serialiser. -/
structure ArduinoJson where
  deserializeJson : Nat → String → Option JsonValue
  serializeJson : JsonValue → String

/-- The `variant.as<String>()` conversion: the string itself for a string, the
serialised JSON for any other value, and `"null"` for an unbound variant. -/
def asString (lib : ArduinoJson) : Option JsonValue → String
  | some (.str s) => s
  | some v => lib.serializeJson v
  | none => "null"

/-! ## Program state and recorded calls -/

/-- Calls made by the program on its collaborators, in program order. -/
inductive Event where
  /-- The `WiFi.begin(ssid, password)` call. -/
  | wifiBegin (ssid password : String)
  /-- The `delay(ms)` call. -/
  | delay (ms : Nat)
  /-- The `client.setServer(host, port)` call. -/
  | setServer (host : String) (port : Nat)
  /-- The `client.setCallback(onMqttMessage)` call. -/
  | setCallback
  /-- The `client.connect(id, user, password)` call: one broker handshake. -/
  | connect (clientId user pass : String)
  /-- The `client.subscribe(topic)` call. -/
  | subscribe (topic : String)
  /-- The `client.publish(topic, serializeJson(doc), retained)` call. -/
  | publish (topic : String) (doc : JsonValue) (retained : Bool)
  /-- The `commandCallback(command, data)` call. -/
  | callback (command : String) (data : JsonObject)
  /-- The `client.loop()` call. -/
  | loop

/-- The mutable globals of `mqtt_connection.h`.  `commandCallback` is `true` when the
function pointer is not `nullptr`; the callback itself is an external collaborator
whose invocation is recorded as `Event.callback` and which does not write these
globals. -/
structure State where
  device_id : String
  topic_status : String
  topic_data : String
  topic_commands : String
  topic_response : String
  lastMQTTHeartbeat : Nat
  lastDataSend : Nat
  mqttConnected : Bool
  wifiConnected : Bool
  commandCallback : Bool

def ssid : String := "Torre B402"
def password : String := "73144984"
def mqtt_server : String := "eridanus.cloud.shiftr.io"
def mqtt_port : Nat := 1883
def mqtt_user : String := "eridanus"
def mqtt_password : String := "Aeui6hvnooMPWo2j"
def device_name : String := "FIDO_Dispenser"
def topic_discovery : String := "fido/dispensers/discovery"

/-- The globals as initialised at program start. -/
def State.initial : State :=
  { device_id := "", topic_status := "", topic_data := "", topic_commands := "",
    topic_response := "", lastMQTTHeartbeat := 0, lastDataSend := 0,
    mqttConnected := false, wifiConnected := false, commandCallback := false }

/-- Number of values of an `unsigned long` (32 bits on the ESP32). -/
def ULONG_MOD : Nat := 4294967296

/-- The value `millis()` returns when the uptime is `t` milliseconds. -/
def millis (t : Nat) : Nat := t % ULONG_MOD

/-- Subtraction `a - b` of two `unsigned long` values. -/
def ulongSub (a b : Nat) : Nat := (a % ULONG_MOD + ULONG_MOD - b % ULONG_MOD) % ULONG_MOD

/-! ## Publisher -/

/-- `publishDiscovery()`; `ip` is `WiFi.localIP().toString()` and `t` the uptime at
the `millis()` call. -/
def publishDiscovery (s : State) (ip : String) (t : Nat) : List Event :=
  [Event.publish topic_discovery
    (.obj [("deviceId", .str s.device_id),
           ("name", .str device_name),
           ("type", .str "smart_dispenser"),
           ("version", .str "1.0.0"),
           ("ip", .str ip),
           ("timestamp", .int (millis t)),
           ("isAvailable", .bool true),
           ("batteryLevel", .int 100)])
    true]

/-- `publishStatus(status, description)`. -/
def publishStatus (s : State) (status description : String) (t : Nat) : List Event :=
  if !s.mqttConnected then []
  else
    [Event.publish s.topic_status
      (.obj [("deviceId", .str s.device_id),
             ("status", .str status),
             ("description", .str description),
             ("timestamp", .int (millis t)),
             ("isOnline", .bool true)])
      false]

/-- The container level computed by the 4-argument `publishSensorData`
(`mqtt_connection.h` lines 287-301): the value stored in `doc["containerLevel"]`. -/
def containerLevel (distance : ℚ) : ℤ :=
  let DIST_FULL : ℚ := 8
  let DIST_EMPTY : ℚ := 25 / 2
  let level : ℚ :=
    if distance ≤ DIST_FULL then 100
    else if distance ≥ DIST_EMPTY then 0
    else 100 * (DIST_EMPTY - distance) / (DIST_EMPTY - DIST_FULL)
  Arduino.round (Arduino.constrain level 0 100)

/-- The 4-argument `publishSensorData(weight, distance, dispenserState, dispensedAmount)`
of `mqtt_connection.h`. -/
def publishSensorData (s : State) (weight distance : ℚ) (dispenserState : String)
    (dispensedAmount : ℚ) (t : Nat) : List Event :=
  if !s.mqttConnected then []
  else
    [Event.publish s.topic_data
      (.obj [("deviceId", .str s.device_id),
             ("timestamp", .int (millis t)),
             ("weight", .float (Arduino.round (weight * 10) / 10)),
             ("distance", .float (Arduino.round (distance * 10) / 10)),
             ("dispenserState", .str dispenserState),
             ("dispensedAmount", .float (Arduino.round (dispensedAmount * 10) / 10)),
             ("containerLevel", .int (containerLevel distance)),
             ("batteryLevel", .int 100),
             ("isOnline", .bool true)])
      false]

/-- The 6-argument `publishSensorData(weight, distance, dispenserState,
dispensedAmount, porcentajeLlenado, type)` of `publish_with_type.h`; `undefinedLong` is
what the target yields where the cast to `long` inside `round(porcentajeLlenado)` is
undefined. -/
def publishSensorDataWithType (undefinedLong : Arduino.CFloat → ℤ) (s : State)
    (weight distance : ℚ) (dispenserState : String) (dispensedAmount : ℚ)
    (porcentajeLlenado : Arduino.CFloat) (type : String) (t : Nat) : List Event :=
  if !s.mqttConnected then []
  else
    [Event.publish s.topic_data
      (.obj ([("deviceId", .str s.device_id),
              ("timestamp", .int (millis t)),
              ("weight", .float (Arduino.round (weight * 10) / 10)),
              ("distance", .float (Arduino.round (distance * 10) / 10)),
              ("dispenserState", .str dispenserState),
              ("dispensedAmount", .float (Arduino.round (dispensedAmount * 10) / 10)),
              ("containerLevel", .int (Arduino.roundLong undefinedLong porcentajeLlenado)),
              ("batteryLevel", .int 100),
              ("isOnline", .bool true)]
             ++ (if type.length > 0 then [("type", .str type)] else [])))
      false]

/-- `publishResponse(command, result, message)`. -/
def publishResponse (s : State) (command result message : String) (t : Nat) : List Event :=
  if !s.mqttConnected then []
  else
    [Event.publish s.topic_response
      (.obj [("deviceId", .str s.device_id),
             ("command", .str command),
             ("result", .str result),
             ("message", .str message),
             ("timestamp", .int (millis t))])
      false]

/-! ## Device identity -/

/-- Arduino `String(value, HEX)`: the hexadecimal digits of `value`, lower case,
without padding. -/
def hexString (value : Nat) : String := String.mk (Nat.toDigits 16 value)

/-- `generateDeviceID()`; `chipid` is the value of `ESP.getEfuseMac()`. -/
def generateDeviceID (s : State) (chipid : Nat) : State × List Event :=
  let device_id :=
    ("FIDO_" ++ hexString ((chipid / 4294967296) % 4294967296)
      ++ hexString (chipid % 4294967296)).toUpper
  ({ s with
      device_id := device_id,
      topic_status := "fido/dispensers/" ++ device_id ++ "/status",
      topic_data := "fido/dispensers/" ++ device_id ++ "/data",
      topic_commands := "fido/dispensers/" ++ device_id ++ "/commands",
      topic_response := "fido/dispensers/" ++ device_id ++ "/response" }, [])

/-! ## Command router -/

/-- What the platform returns during one call of `onMqttMessage`: the local IP and
the uptime at the `millis()` call of `publishDiscovery` and of `publishResponse`. -/
structure MessageReads where
  ip : String
  tDiscovery : Nat
  tResponse : Nat

/-- The command name extracted by `onMqttMessage` (lines 146-156). -/
def commandName (lib : ArduinoJson) (doc : JsonValue) : String :=
  if doc.containsKey "command" then asString lib (doc.get "command")
  else if doc.containsKey "action" then asString lib (doc.get "action")
  else ""

/-- The additional data extracted by `onMqttMessage` (lines 158-167). -/
def commandData (doc : JsonValue) : JsonObject :=
  if doc.containsKey "data" then asObject (doc.get "data")
  else asObject (some doc)

/-- `onMqttMessage(topic, payload, length)`; `message` is the text of the payload. -/
def onMqttMessage (lib : ArduinoJson) (s : State) (topic message : String)
    (r : MessageReads) : State × List Event :=
  let discoveryEvents : List Event :=
    if topic = topic_discovery then
      match lib.deserializeJson 200 message with
      | some doc =>
        if asString lib (doc.get "action") = "discover" then
          publishDiscovery s r.ip r.tDiscovery
        else []
      | none => []
    else []
  let commandEvents : List Event :=
    if topic = s.topic_commands then
      match lib.deserializeJson 200 message with
      | some doc =>
        let command := commandName lib doc
        let data := commandData doc
        (if s.commandCallback && command != "" then [Event.callback command data] else [])
          ++ (if command != "connect" then
                publishResponse s command "received" "" r.tResponse
              else [])
      | none => []
    else []
  (s, discoveryEvents ++ commandEvents)

/-! ## Broker session -/

/-- What the platform returns during one call of `connectMQTT`: the outcome of
`client.connect(..)`, the local IP, and the uptime at the `millis()` call of
`publishDiscovery` and of `publishStatus`. -/
structure ConnectReads where
  handshake : Bool
  ip : String
  tDiscovery : Nat
  tStatus : Nat

/-- `connectMQTT()`: the new globals, the returned value and the calls made. -/
def connectMQTT (s : State) (r : ConnectReads) : State × Bool × List Event :=
  if !s.wifiConnected then (s, false, [])
  else
    let setup : List Event :=
      [Event.setServer mqtt_server mqtt_port, Event.setCallback,
       Event.connect s.device_id mqtt_user mqtt_password]
    if r.handshake then
      let s1 : State := { s with mqttConnected := true }
      (s1, true,
        setup ++ [Event.subscribe s1.topic_commands, Event.subscribe topic_discovery]
          ++ publishDiscovery s1 r.ip r.tDiscovery
          ++ publishStatus s1 "online" "Sistema iniciado" r.tStatus)
    else
      ({ s with mqttConnected := false }, false, setup)

/-- One frame delivered to the callback by `client.loop()`. -/
structure Frame where
  topic : String
  message : String
  reads : MessageReads

/-- The callback invocations made by one `client.loop()` call that delivers `inbox`. -/
def deliver (lib : ArduinoJson) (s : State) : List Frame → State × List Event
  | [] => (s, [])
  | f :: rest =>
    let step := onMqttMessage lib s f.topic f.message f.reads
    let tail := deliver lib step.1 rest
    (tail.1, step.2 ++ tail.2)

/-- What the platform returns during one call of `maintainMQTTConnection`:
`connected` is `client.connected()`, `now1` the uptime at the `millis()` call of line
342, `connect` the reads of `connectMQTT`, `inbox` the frames `client.loop()`
delivers, `now2` the uptime at the `millis()` call of line 354 and `tHeartbeat` the
uptime at the `millis()` call of the heartbeat `publishStatus`. -/
structure TickReads where
  connected : Bool
  now1 : Nat
  connect : ConnectReads
  inbox : List Frame
  now2 : Nat
  tHeartbeat : Nat

/-- The reconnect block of `maintainMQTTConnection` (lines 341-348). -/
def reconnectBlock (s : State) (r : TickReads) : State × List Event :=
  if !r.connected && s.wifiConnected then
    let now := millis r.now1
    if ulongSub now s.lastMQTTHeartbeat > 5000 then
      let c := connectMQTT s r.connect
      if c.2.1 then ({ c.1 with lastMQTTHeartbeat := now }, c.2.2)
      else (c.1, c.2.2)
    else (s, [])
  else (s, [])

/-- The heartbeat block of `maintainMQTTConnection` (lines 350-359). -/
def heartbeatBlock (lib : ArduinoJson) (s : State) (r : TickReads) : State × List Event :=
  if s.mqttConnected then
    let l := deliver lib s r.inbox
    let now := millis r.now2
    if ulongSub now l.1.lastMQTTHeartbeat > 30000 then
      ({ l.1 with lastMQTTHeartbeat := now },
        Event.loop :: l.2 ++ publishStatus l.1 "online" "Heartbeat" r.tHeartbeat)
    else (l.1, Event.loop :: l.2)
  else (s, [])

/-- `maintainMQTTConnection()`: one maintenance tick. -/
def maintainMQTTConnection (lib : ArduinoJson) (s : State) (r : TickReads) :
    State × List Event :=
  let a := reconnectBlock s r
  let b := heartbeatBlock lib a.1 r
  (b.1, a.2 ++ b.2)

/-! ## Network link -/

/-- The polling loop of `connectWiFi()` (lines 84-89), entered with the counter at
`attempts`: the value of `attempts` when the loop exits and the `delay(500)` calls made.
`status k` tells whether the `k`-th call of `WiFi.status()` made by `connectWiFi()`
(counted from 0) returns `WL_CONNECTED`; the loop test made with the counter at
`attempts` is call number `attempts`. -/
def connectWiFiLoop (status : Nat → Bool) (attempts : Nat) : Nat × List Event :=
  if !status attempts && decide (attempts < 20) then
    let rest := connectWiFiLoop status (attempts + 1)
    (rest.1, Event.delay 500 :: rest.2)
  else (attempts, [])
termination_by 20 - attempts
decreasing_by
  simp_wf
  simp only [Bool.and_eq_true, decide_eq_true_eq] at *
  omega

/-- `connectWiFi()`: the new globals, the returned value and the calls made.  The test
of line 91 is one more call of `WiFi.status()`, made after the loop. -/
def connectWiFi (s : State) (status : Nat → Bool) : State × Bool × List Event :=
  let loop := connectWiFiLoop status 0
  if status (loop.1 + 1) then
    ({ s with wifiConnected := true }, true, Event.wifiBegin ssid password :: loop.2)
  else
    ({ s with wifiConnected := false }, false, Event.wifiBegin ssid password :: loop.2)

/-- `setCommandCallback(callback)`; `callback` is `true` for a pointer that is not
`nullptr`. -/
def setCommandCallback (s : State) (callback : Bool) : State :=
  { s with commandCallback := callback }

/-- `initConnectivity()`: the new globals, the returned value and the calls made. -/
def initConnectivity (s : State) (chipid : Nat) (status : Nat → Bool) (r : ConnectReads) :
    State × Bool × List Event :=
  let g := generateDeviceID s chipid
  let w := connectWiFi g.1 status
  if w.2.1 then
    let c := connectMQTT w.1 r
    (c.1, c.2.1, g.2 ++ w.2.2 ++ Event.delay 1000 :: c.2.2)
  else (w.1, false, g.2 ++ w.2.2)

/-- `isConnected()`. -/
def isConnected (s : State) : Bool := s.wifiConnected && s.mqttConnected

/-! ## Sequences of calls -/

/-- One call of a function of the connectivity layer, with the values the platform
returns during the call. -/
inductive Op where
  | generateDeviceID (chipid : Nat)
  | connectWiFi (status : Nat → Bool)
  | connectMQTT (r : ConnectReads)
  | initConnectivity (chipid : Nat) (status : Nat → Bool) (r : ConnectReads)
  | maintainMQTTConnection (r : TickReads)
  | onMqttMessage (topic message : String) (r : MessageReads)
  | setCommandCallback (callback : Bool)
  | publishDiscovery (ip : String) (t : Nat)
  | publishStatus (status description : String) (t : Nat)
  | publishSensorData (weight distance : ℚ) (dispenserState : String) (dispensedAmount : ℚ)
      (t : Nat)
  | publishSensorDataWithType (weight distance : ℚ) (dispenserState : String)
      (dispensedAmount : ℚ) (porcentajeLlenado : Arduino.CFloat) (type : String) (t : Nat)
  | publishResponse (command result message : String) (t : Nat)

/-- The globals after one call.  The publish functions write no global. -/
def applyOp (lib : ArduinoJson) (s : State) : Op → State
  | .generateDeviceID chipid => (generateDeviceID s chipid).1
  | .connectWiFi status => (connectWiFi s status).1
  | .connectMQTT r => (connectMQTT s r).1
  | .initConnectivity chipid status r => (initConnectivity s chipid status r).1
  | .maintainMQTTConnection r => (maintainMQTTConnection lib s r).1
  | .onMqttMessage topic message r => (onMqttMessage lib s topic message r).1
  | .setCommandCallback callback => setCommandCallback s callback
  | .publishDiscovery _ _ => s
  | .publishStatus _ _ _ => s
  | .publishSensorData _ _ _ _ _ => s
  | .publishSensorDataWithType _ _ _ _ _ _ _ => s
  | .publishResponse _ _ _ _ => s

/-- The globals after a sequence of calls. -/
def runOps (lib : ArduinoJson) (s : State) : List Op → State
  | [] => s
  | op :: rest => runOps lib (applyOp lib s op) rest

/-- The call is a `connectWiFi()`, made directly or by `initConnectivity()`, that
returns false. -/
def linkFails (s : State) : Op → Bool
  | .connectWiFi status => !(connectWiFi s status).2.1
  | .initConnectivity chipid status _ =>
    !(connectWiFi (generateDeviceID s chipid).1 status).2.1
  | _ => false

/-- No `connectWiFi()` of the sequence fails in a state in which `mqttConnected` is
true. -/
def linkKept (lib : ArduinoJson) (s : State) : List Op → Prop
  | [] => True
  | op :: rest =>
    (linkFails s op = true → s.mqttConnected = false) ∧ linkKept lib (applyOp lib s op) rest

/-! ## Runs of maintenance ticks -/

/-- Recognises a `client.connect(..)` call. -/
def Event.isConnect : Event → Bool
  | .connect _ _ _ => true
  | _ => false

/-- Recognises the heartbeat status message: a published document whose `status` is
`"online"` and whose `description` is `"Heartbeat"`. -/
def Event.isHeartbeat : Event → Bool
  | .publish _ doc _ =>
    (match doc.get "status" with
     | some (.str st) => st == "online"
     | _ => false)
    && (match doc.get "description" with
        | some (.str d) => d == "Heartbeat"
        | _ => false)
  | _ => false

/-- The globals after a sequence of maintenance ticks. -/
def runTicks (lib : ArduinoJson) (s : State) : List TickReads → State
  | [] => s
  | r :: rest => runTicks lib (maintainMQTTConnection lib s r).1 rest

/-- The times of the reconnect attempts of a run: for every tick that calls
`client.connect(..)`, the uptime `now1` the tick read before the attempt. -/
def attemptTimes (lib : ArduinoJson) (s : State) : List TickReads → List Nat
  | [] => []
  | r :: rest =>
    let step := maintainMQTTConnection lib s r
    (if step.2.any Event.isConnect then [r.now1] else [])
      ++ attemptTimes lib step.1 rest

/-- The times of the heartbeat emissions of a run: for every tick that publishes the
heartbeat status message, the uptime `now2` the tick read before the emission. -/
def heartbeatTimes (lib : ArduinoJson) (s : State) : List TickReads → List Nat
  | [] => []
  | r :: rest =>
    let step := maintainMQTTConnection lib s r
    (if step.2.any Event.isHeartbeat then [r.now2] else [])
      ++ heartbeatTimes lib step.1 rest

/-- The clock of a run is non-decreasing: within every tick `now1 ≤ now2`, and the
readings of a tick are not before those of the tick that precedes it (`t` is the last
reading before the run). -/
def clockMonotone (t : Nat) : List TickReads → Prop
  | [] => True
  | r :: rest => t ≤ r.now1 ∧ r.now1 ≤ r.now2 ∧ clockMonotone r.now2 rest

/-! ## Observations on recorded calls -/

/-- The integer `containerLevel` field of a published message, if the call is a
publish of a document that has one. -/
def Event.levelField : Event → Option ℤ
  | .publish _ doc _ =>
    match doc.get "containerLevel" with
    | some (.int n) => some n
    | _ => none
  | _ => none

/-- Recognises a command acknowledgment: a published document with a `result`
field, as built by `publishResponse`. -/
def Event.isResponse : Event → Bool
  | .publish _ doc _ => doc.containsKey "result"
  | _ => false

/-- Recognises an invocation of the registered command callback. -/
def Event.isCallback : Event → Bool
  | .callback _ _ => true
  | _ => false

/-! ## Concrete inputs -/

/-- The text `{"command":"dispense","data":{"amount":50}}`. -/
def dispenseText : String :=
  "\x7b\"command\":\"dispense\",\"data\":\x7b\"amount\":50\x7d\x7d"

/-- The text `{"action":"discover"}`. -/
def discoverText : String := "\x7b\"action\":\"discover\"\x7d"

/-- The text `{"action":"ping","command":"connect"}`. -/
def connectText : String := "\x7b\"action\":\"ping\",\"command\":\"connect\"\x7d"

/-- The text `{"command":` (malformed JSON). -/
def malformedText : String := "\x7b\"command\":"

/-- A decoder that knows the three well-formed texts above and rejects every other
input; the serialiser is not exercised by these inputs. -/
def sampleJson : ArduinoJson :=
  { deserializeJson := fun _ text =>
      if text = dispenseText then
        some (.obj [("command", .str "dispense"), ("data", .obj [("amount", .int 50)])])
      else if text = discoverText then
        some (.obj [("action", .str "discover")])
      else if text = connectText then
        some (.obj [("action", .str "ping"), ("command", .str "connect")])
      else none,
    serializeJson := fun _ => "" }

/-- Platform reads of one `onMqttMessage` call at uptime `t`. -/
def sampleReads (t : Nat) : MessageReads :=
  { ip := "192.168.1.50", tDiscovery := t, tResponse := t }

/-- The globals after a successful `connectWiFi()` at program start: link up, session
not yet connected, heartbeat clock at 0. -/
def State.linkUp : State := { State.initial with wifiConnected := true }

/-- Platform reads of a tick at uptime `t` in which `client.connected()` is false and
the broker handshake fails; no frame is delivered. -/
def failedTick (t : Nat) : TickReads :=
  { connected := false, now1 := t,
    connect := { handshake := false, ip := "192.168.1.50", tDiscovery := t, tStatus := t },
    inbox := [], now2 := t, tHeartbeat := t }

/-- Platform reads of a tick at uptime `t` in which `client.connected()` is true and no
frame is delivered. -/
def quietTick (t : Nat) : TickReads :=
  { connected := true, now1 := t,
    connect := { handshake := true, ip := "192.168.1.50", tDiscovery := t, tStatus := t },
    inbox := [], now2 := t, tHeartbeat := t }

/-- The globals after a successful `connectWiFi()` and `connectMQTT()` on the
device whose identifier is `0x0123456789AB`, with a command callback registered. -/
def State.online : State :=
  { device_id := "FIDO_123456789AB",
    topic_status := "fido/dispensers/FIDO_123456789AB/status",
    topic_data := "fido/dispensers/FIDO_123456789AB/data",
    topic_commands := "fido/dispensers/FIDO_123456789AB/commands",
    topic_response := "fido/dispensers/FIDO_123456789AB/response",
    lastMQTTHeartbeat := 0, lastDataSend := 0,
    mqttConnected := true, wifiConnected := true, commandCallback := true }

/-- The upper-case hexadecimal digits of `n`, most significant first, without
padding. -/
def upperHexDigits (n : Nat) : String := String.mk ((Nat.toDigits 16 n).map Char.toUpper)

/-- Platform reads of a successful `connectMQTT()` at uptime `t`. -/
def connectedReads (t : Nat) : ConnectReads :=
  { handshake := true, ip := "192.168.1.50", tDiscovery := t, tStatus := t }

/-- Platform reads of a failed `connectMQTT()` at uptime `t`. -/
def refusedReads (t : Nat) : ConnectReads :=
  { handshake := false, ip := "192.168.1.50", tDiscovery := t, tStatus := t }

/-- A link that reports connected at every reading. -/
def linkAlwaysUp : Nat → Bool := fun _ => true

/-- A link that never reports connected. -/
def linkNeverUp : Nat → Bool := fun _ => false

/-- A link that reports connected at its fourth reading (reading 3) only. -/
def linkUpOnlyAtThree : Nat → Bool := fun k => decide (k = 3)

/-- A link that reports connected from reading 21 on, and not before. -/
def linkUpFromTwentyOne : Nat → Bool := fun k => decide (21 ≤ k)

/-- A target on which an undefined conversion to `long` yields the least `long`. -/
def undefinedAsMin : Arduino.CFloat → ℤ := fun _ => Arduino.LONG_MIN

/-- A link that reports connected from the fourth reading on. -/
def linkUpAfterThree : Nat → Bool := fun k => decide (3 ≤ k)

/-- Recognises a discovery message: a published document with a `name` member (of the
documents the program builds, only the one of `publishDiscovery` has it). -/
def Event.isDiscovery : Event → Bool
  | .publish _ doc _ => doc.containsKey "name"
  | _ => false

/-- The call publishes, to the shared discovery topic and retained, a document with
`isAvailable = true` and `type = "smart_dispenser"`. -/
def Event.isRetainedAdvertisement (e : Event) : Prop :=
  ∃ doc, e = Event.publish topic_discovery doc true
    ∧ doc.get "isAvailable" = some (.bool true)
    ∧ doc.get "type" = some (.str "smart_dispenser")

/-- The serialised discovery message of the device `FIDO_123456789AB` published at
uptime 10500 ms. -/
def advertisementText : String :=
  "\x7b\"deviceId\":\"FIDO_123456789AB\",\"name\":\"FIDO_Dispenser\",\"type\":\"smart_dispenser\",\"version\":\"1.0.0\",\"ip\":\"192.168.1.50\",\"timestamp\":10500,\"isAvailable\":true,\"batteryLevel\":100\x7d"

/-- A decoder that knows `advertisementText` and rejects every other input. -/
def advertisementJson : ArduinoJson :=
  { deserializeJson := fun _ text =>
      if text = advertisementText then
        some (.obj [("deviceId", .str "FIDO_123456789AB"),
                    ("name", .str "FIDO_Dispenser"),
                    ("type", .str "smart_dispenser"),
                    ("version", .str "1.0.0"),
                    ("ip", .str "192.168.1.50"),
                    ("timestamp", .int 10500),
                    ("isAvailable", .bool true),
                    ("batteryLevel", .int 100)])
      else none,
    serializeJson := fun _ => "" }

end Fido

/-! # Theorems -/

namespace Arduino

theorem round_of_nonneg {x : ℚ} (hx : 0 ≤ x) : Arduino.round x = Int.floor (x + 1 / 2) := by
  have h : (0 : ℚ) ≤ x + 1 / 2 := by linarith
  simp only [Arduino.round, Arduino.toLong, hx, h, if_true]

theorem round_mono_of_nonneg {x y : ℚ} (hx : 0 ≤ x) (hxy : x ≤ y) :
    Arduino.round x ≤ Arduino.round y := by
  rw [round_of_nonneg hx, round_of_nonneg (le_trans hx hxy)]
  exact Int.floor_mono (by linarith)

theorem round_mem_percent_iff (p : ℚ) :
    (0 ≤ Arduino.round p ∧ Arduino.round p ≤ 100) ↔ (-1 / 2 < p ∧ p < 201 / 2) := by
  by_cases hp : 0 ≤ p
  · rw [round_of_nonneg hp]
    have h0 : 0 ≤ Int.floor (p + 1 / 2) := Int.floor_nonneg.mpr (by linarith)
    have h1 : Int.floor (p + 1 / 2) < 101 ↔ p + 1 / 2 < 101 := by
      rw [Int.floor_lt]; norm_num
    constructor
    · rintro ⟨_, h⟩
      have := h1.mp (by omega)
      constructor <;> linarith
    · rintro ⟨_, h⟩
      have := h1.mpr (by linarith)
      omega
  · have hn : p < 0 := lt_of_not_le hp
    have h2 : ¬ (0 : ℚ) ≤ p - 1 / 2 := by rw [not_le]; linarith
    simp only [Arduino.round, Arduino.toLong, hp, h2, if_false]
    have hc : Int.ceil (p - 1 / 2) ≤ 0 := by rw [Int.ceil_le]; push_cast; linarith
    have h1 : -1 < Int.ceil (p - 1 / 2) ↔ ((-1 : ℤ) : ℚ) < p - 1 / 2 := Int.lt_ceil
    constructor
    · rintro ⟨h, _⟩
      have := h1.mp (by omega)
      push_cast at this
      constructor <;> linarith
    · rintro ⟨h, _⟩
      have := h1.mpr (by push_cast; linarith)
      omega

theorem round_fits_long {q : ℚ} (hlo : -2147483648 ≤ q) (hhi : q ≤ 2147483647) :
    LONG_MIN ≤ Arduino.round q ∧ Arduino.round q ≤ LONG_MAX := by
  by_cases hq : 0 ≤ q
  · rw [round_of_nonneg hq]
    have h0 : 0 ≤ Int.floor (q + 1 / 2) := Int.floor_nonneg.mpr (by linarith)
    have h1 : Int.floor (q + 1 / 2) < 2147483648 := by
      rw [Int.floor_lt]; push_cast; linarith
    simp only [LONG_MIN, LONG_MAX]
    omega
  · have hn : q < 0 := lt_of_not_le hq
    have h2 : ¬ (0 : ℚ) ≤ q - 1 / 2 := by rw [not_le]; linarith
    simp only [Arduino.round, Arduino.toLong, hq, h2, if_false, LONG_MIN, LONG_MAX]
    have hc : Int.ceil (q - 1 / 2) ≤ 0 := by rw [Int.ceil_le]; push_cast; linarith
    have h1 : (-2147483649 : ℤ) < Int.ceil (q - 1 / 2) := by
      rw [Int.lt_ceil]; push_cast; linarith
    omega

end Arduino

namespace Fido

/-! ## Maintenance tick -/

theorem ulongSub_gt {a b n : Nat} (h : n < ulongSub (millis a) (millis b)) (hab : b ≤ a) :
    b + n < a := by
  simp only [ulongSub, millis, ULONG_MOD] at h
  omega

theorem publishDiscovery_no_heartbeat (s : State) (ip : String) (t : Nat) :
    (publishDiscovery s ip t).any Event.isHeartbeat = false := by
  simp [publishDiscovery, Event.isHeartbeat, JsonValue.get]

theorem publishResponse_no_heartbeat (s : State) (c res m : String) (t : Nat) :
    (publishResponse s c res m t).any Event.isHeartbeat = false := by
  unfold publishResponse
  split_ifs <;> simp [Event.isHeartbeat, JsonValue.get]

theorem onMqttMessage_no_heartbeat (lib : ArduinoJson) (s : State) (topic message : String)
    (r : MessageReads) :
    (onMqttMessage lib s topic message r).2.any Event.isHeartbeat = false := by
  cases hdec : lib.deserializeJson 200 message
  · simp [onMqttMessage, hdec]
  · simp only [onMqttMessage, hdec, List.any_append, Bool.or_eq_false_iff]
    constructor
    · split_ifs <;> simp [publishDiscovery_no_heartbeat]
    · split_ifs <;>
        simp [publishResponse_no_heartbeat, Event.isHeartbeat]

theorem deliver_fst (lib : ArduinoJson) (s : State) (inbox : List Frame) :
    (deliver lib s inbox).1 = s := by
  induction inbox with
  | nil => rfl
  | cons f rest ih => simpa [deliver, onMqttMessage] using ih

theorem deliver_no_heartbeat (lib : ArduinoJson) (s : State) (inbox : List Frame) :
    (deliver lib s inbox).2.any Event.isHeartbeat = false := by
  induction inbox generalizing s with
  | nil => rfl
  | cons f rest ih =>
    simp only [deliver, List.any_append, Bool.or_eq_false_iff]
    exact ⟨onMqttMessage_no_heartbeat lib s _ _ _, ih _⟩

theorem connectMQTT_no_heartbeat (s : State) (r : ConnectReads) :
    (connectMQTT s r).2.2.any Event.isHeartbeat = false := by
  unfold connectMQTT
  split_ifs <;>
    simp [publishDiscovery_no_heartbeat, publishStatus, Event.isHeartbeat, JsonValue.get]

theorem reconnectBlock_no_heartbeat (s : State) (r : TickReads) :
    (reconnectBlock s r).2.any Event.isHeartbeat = false := by
  simp only [reconnectBlock]
  split_ifs <;> simp [connectMQTT_no_heartbeat]

theorem connectMQTT_last (s : State) (r : ConnectReads) :
    (connectMQTT s r).1.lastMQTTHeartbeat = s.lastMQTTHeartbeat := by
  unfold connectMQTT
  split_ifs <;> rfl

theorem reconnectBlock_last (s : State) (r : TickReads) :
    (reconnectBlock s r).1.lastMQTTHeartbeat = s.lastMQTTHeartbeat
      ∨ (reconnectBlock s r).1.lastMQTTHeartbeat = millis r.now1 := by
  simp only [reconnectBlock]
  split_ifs <;> simp [connectMQTT_last]

theorem heartbeatBlock_emits (lib : ArduinoJson) (s : State) (r : TickReads) :
    (heartbeatBlock lib s r).2.any Event.isHeartbeat = true
      ↔ (s.mqttConnected = true ∧ 30000 < ulongSub (millis r.now2) s.lastMQTTHeartbeat) := by
  unfold heartbeatBlock
  by_cases hm : s.mqttConnected = true
  · by_cases hb : 30000 < ulongSub (millis r.now2) s.lastMQTTHeartbeat
    · simp [hm, hb, deliver_fst, deliver_no_heartbeat, publishStatus, Event.isHeartbeat,
        JsonValue.get]
    · simp [hm, hb, deliver_fst, deliver_no_heartbeat, Event.isHeartbeat]
  · simp [hm]

theorem heartbeatBlock_last (lib : ArduinoJson) (s : State) (r : TickReads) :
    (heartbeatBlock lib s r).1.lastMQTTHeartbeat
      = if (heartbeatBlock lib s r).2.any Event.isHeartbeat then millis r.now2
        else s.lastMQTTHeartbeat := by
  by_cases he : (heartbeatBlock lib s r).2.any Event.isHeartbeat = true
  · rw [if_pos he]
    obtain ⟨hm, hb⟩ := (heartbeatBlock_emits lib s r).mp he
    simp [heartbeatBlock, hm, hb, deliver_fst]
  · rw [if_neg he]
    have hn : ¬ (s.mqttConnected = true ∧ 30000 < ulongSub (millis r.now2) s.lastMQTTHeartbeat) :=
      fun h => he ((heartbeatBlock_emits lib s r).mpr h)
    by_cases hm : s.mqttConnected = true
    · have hb : ¬ 30000 < ulongSub (millis r.now2) s.lastMQTTHeartbeat := fun h => hn ⟨hm, h⟩
      simp [heartbeatBlock, hm, hb, deliver_fst]
    · simp [heartbeatBlock, hm]

theorem heartbeatBlock_connected (lib : ArduinoJson) (s : State) (r : TickReads) :
    (heartbeatBlock lib s r).1.mqttConnected = s.mqttConnected := by
  simp only [heartbeatBlock]
  split_ifs <;> simp [deliver_fst]

theorem tick_emits (lib : ArduinoJson) (s : State) (r : TickReads) :
    (maintainMQTTConnection lib s r).2.any Event.isHeartbeat
      = (heartbeatBlock lib (reconnectBlock s r).1 r).2.any Event.isHeartbeat := by
  simp [maintainMQTTConnection, reconnectBlock_no_heartbeat]


theorem tick_last (lib : ArduinoJson) (s : State) (r : TickReads) :
    (maintainMQTTConnection lib s r).1.lastMQTTHeartbeat
      = if (maintainMQTTConnection lib s r).2.any Event.isHeartbeat then millis r.now2
        else (reconnectBlock s r).1.lastMQTTHeartbeat := by
  rw [tick_emits]
  exact heartbeatBlock_last lib _ r

/-- One tick from a state whose heartbeat clock holds the reading taken at uptime `T`:
a heartbeat is emitted only more than 30000 ms after `T`, and afterwards the clock
holds a reading taken at an uptime between `T` and `now2`. -/
theorem tick_step (lib : ArduinoJson) (s : State) (r : TickReads) (T : Nat)
    (hs : s.lastMQTTHeartbeat = millis T) (h1 : T ≤ r.now1) (h2 : r.now1 ≤ r.now2) :
    ((maintainMQTTConnection lib s r).2.any Event.isHeartbeat = true → T + 30000 < r.now2)
      ∧ ∃ T', (maintainMQTTConnection lib s r).1.lastMQTTHeartbeat = millis T'
          ∧ T ≤ T' ∧ T' ≤ r.now2
          ∧ ((maintainMQTTConnection lib s r).2.any Event.isHeartbeat = true → T' = r.now2) := by
  have hlast := tick_last lib s r
  have hem := tick_emits lib s r
  by_cases he : (maintainMQTTConnection lib s r).2.any Event.isHeartbeat = true
  · rw [if_pos he] at hlast
    rw [he] at hem
    obtain ⟨_, hb⟩ := (heartbeatBlock_emits lib _ r).mp hem.symm
    refine ⟨fun _ => ?_, r.now2, hlast, by omega, le_refl _, fun _ => rfl⟩
    rcases reconnectBlock_last s r with h | h
    · rw [h, hs] at hb
      exact ulongSub_gt hb (by omega)
    · rw [h] at hb
      have := ulongSub_gt hb h2
      omega
  · rw [if_neg he] at hlast
    refine ⟨fun h => absurd h he, ?_⟩
    rcases reconnectBlock_last s r with h | h
    · exact ⟨T, by rw [hlast, h, hs], le_refl _, by omega, fun h => absurd h he⟩
    · exact ⟨r.now1, by rw [hlast, h], h1, h2, fun h => absurd h he⟩

theorem heartbeatTimes_after (lib : ArduinoJson) :
    ∀ (ticks : List TickReads) (s : State) (T t0 : Nat),
      s.lastMQTTHeartbeat = millis T → T ≤ t0 → clockMonotone t0 ticks →
      (∀ h ∈ heartbeatTimes lib s ticks, T + 30000 < h)
        ∧ List.Chain' (fun a b => a + 30000 ≤ b) (heartbeatTimes lib s ticks) := by
  intro ticks
  induction ticks with
  | nil => intro s T t0 _ _ _; simp [heartbeatTimes]
  | cons r rest ih =>
    intro s T t0 hs hT hclk
    obtain ⟨h01, h12, hrest⟩ := hclk
    obtain ⟨hgap, T', hs', hTT', hT', hnow⟩ := tick_step lib s r T hs (by omega) h12
    obtain ⟨ihmem, ihchain⟩ := ih _ T' r.now2 hs' hT' hrest
    by_cases he : (maintainMQTTConnection lib s r).2.any Event.isHeartbeat = true
    · have hg := hgap he
      have hT2 := hnow he
      subst hT2
      simp only [heartbeatTimes, he, if_true, List.singleton_append]
      refine ⟨?_, ?_⟩
      · intro h hh
        rcases List.mem_cons.mp hh with rfl | hh
        · exact hg
        · have := ihmem h hh; omega
      · rw [List.chain'_cons']
        refine ⟨fun y hy => ?_, ihchain⟩
        have := ihmem y (List.mem_of_mem_head? hy)
        omega
    · simp only [heartbeatTimes, he, if_false, List.nil_append, Bool.false_eq_true]
      exact ⟨fun h hh => by have := ihmem h hh; omega, ihchain⟩

theorem heartbeatTimes_chain (lib : ArduinoJson) :
    ∀ (ticks : List TickReads) (s : State) (t0 : Nat), clockMonotone t0 ticks →
      List.Chain' (fun a b => a + 30000 ≤ b) (heartbeatTimes lib s ticks) := by
  intro ticks
  induction ticks with
  | nil => intro s t0 _; simp [heartbeatTimes]
  | cons r rest ih =>
    intro s t0 hclk
    obtain ⟨h01, h12, hrest⟩ := hclk
    by_cases he : (maintainMQTTConnection lib s r).2.any Event.isHeartbeat = true
    · have hlast := tick_last lib s r
      rw [if_pos he] at hlast
      obtain ⟨ihmem, ihchain⟩ :=
        heartbeatTimes_after lib rest _ r.now2 r.now2 hlast (le_refl _) hrest
      simp only [heartbeatTimes, he, if_true, List.singleton_append]
      rw [List.chain'_cons']
      refine ⟨fun y hy => ?_, ihchain⟩
      have := ihmem y (List.mem_of_mem_head? hy)
      omega
    · simp only [heartbeatTimes, he, if_false, List.nil_append, Bool.false_eq_true]
      exact ih _ r.now2 hrest

theorem tick_heartbeat_connected (lib : ArduinoJson) (s : State) (r : TickReads)
    (he : (maintainMQTTConnection lib s r).2.any Event.isHeartbeat = true) :
    (reconnectBlock s r).1.mqttConnected = true
      ∧ (maintainMQTTConnection lib s r).1.mqttConnected = true := by
  rw [tick_emits] at he
  obtain ⟨hm, _⟩ := (heartbeatBlock_emits lib _ r).mp he
  refine ⟨hm, ?_⟩
  show (heartbeatBlock lib (reconnectBlock s r).1 r).1.mqttConnected = true
  rw [heartbeatBlock_connected]; exact hm


theorem countP_eq_zero_of_any_false (l : List Event) (h : l.any Event.isHeartbeat = false) :
    l.countP Event.isHeartbeat = 0 := by
  rw [List.countP_eq_zero]
  intro e he hh
  have : l.any Event.isHeartbeat = true := List.any_eq_true.mpr ⟨e, he, hh⟩
  rw [h] at this
  exact Bool.false_ne_true this

theorem publishStatus_length (s : State) (st d : String) (t : Nat) :
    (publishStatus s st d t).length ≤ 1 := by
  unfold publishStatus
  split_ifs <;> simp

theorem tick_heartbeat_count (lib : ArduinoJson) (s : State) (r : TickReads) :
    (maintainMQTTConnection lib s r).2.countP Event.isHeartbeat ≤ 1 := by
  simp only [maintainMQTTConnection, List.countP_append,
    countP_eq_zero_of_any_false _ (reconnectBlock_no_heartbeat s r), Nat.zero_add]
  simp only [heartbeatBlock]
  split_ifs
  · simp only [List.countP_cons, List.countP_append,
      countP_eq_zero_of_any_false _ (deliver_no_heartbeat lib _ r.inbox)]
    have := List.countP_le_length Event.isHeartbeat
      (l := publishStatus (deliver lib (reconnectBlock s r).1 r.inbox).1 "online" "Heartbeat"
        r.tHeartbeat)
    have := publishStatus_length (deliver lib (reconnectBlock s r).1 r.inbox).1 "online"
      "Heartbeat" r.tHeartbeat
    simp [Event.isHeartbeat]
    omega
  · simp [List.countP_cons, countP_eq_zero_of_any_false _ (deliver_no_heartbeat lib _ r.inbox),
      Event.isHeartbeat]
  · simp

/-- C1 (evaluation of the code at the failing input): with the link up and the
heartbeat clock at 0, two maintenance ticks at uptimes 6000 ms and 6200 ms, in both of
which `client.connected()` is false and the handshake fails, both call
`client.connect(..)`: the two reconnect attempts are 200 ms apart, not 5000 ms. -/
theorem C1_failed_handshake_retried_at_once :
    clockMonotone 0 [failedTick 6000, failedTick 6200]
      ∧ attemptTimes sampleJson State.linkUp [failedTick 6000, failedTick 6200]
          = [6000, 6200]
      ∧ (maintainMQTTConnection sampleJson State.linkUp (failedTick 6000)).1 = State.linkUp
      ∧ ¬ List.Chain' (fun a b => a + 5000 ≤ b)
          (attemptTimes sampleJson State.linkUp [failedTick 6000, failedTick 6200]) := by
  have h : attemptTimes sampleJson State.linkUp [failedTick 6000, failedTick 6200]
      = [6000, 6200] := by decide
  refine ⟨?_, h, rfl, ?_⟩
  · simp [clockMonotone, failedTick]
  · rw [h]; simp

/-- C2: in every run of maintenance ticks with a non-decreasing clock, from any state,
a tick that emits the heartbeat status message does so with `mqttConnected` true (when
the heartbeat block tests it and still after the tick) and emits it once, and any two
consecutive heartbeat emissions are at least 30000 ms apart. -/
theorem C2_heartbeat_rate_limit (lib : ArduinoJson) (s : State) (ticks : List TickReads)
    (hclk : clockMonotone 0 ticks) :
    (∀ pre r post, ticks = pre ++ r :: post →
        (maintainMQTTConnection lib (runTicks lib s pre) r).2.countP Event.isHeartbeat ≤ 1
        ∧ ((maintainMQTTConnection lib (runTicks lib s pre) r).2.any Event.isHeartbeat = true →
            (reconnectBlock (runTicks lib s pre) r).1.mqttConnected = true
            ∧ (maintainMQTTConnection lib (runTicks lib s pre) r).1.mqttConnected = true))
      ∧ List.Chain' (fun a b => a + 30000 ≤ b) (heartbeatTimes lib s ticks) :=
  ⟨fun _ r _ _ => ⟨tick_heartbeat_count lib _ r, tick_heartbeat_connected lib _ r⟩,
    heartbeatTimes_chain lib ticks s 0 hclk⟩

/-- C2 witness: a connected device whose heartbeat clock is at 0, ticked at uptimes
30001 ms, 40000 ms and 60002 ms, emits heartbeats at 30001 ms and 60002 ms. -/
theorem C2_witness_three_ticks :
    clockMonotone 0 [quietTick 30001, quietTick 40000, quietTick 60002]
      ∧ heartbeatTimes sampleJson State.online
          [quietTick 30001, quietTick 40000, quietTick 60002] = [30001, 60002]
      ∧ List.Chain' (fun a b => a + 30000 ≤ b)
          (heartbeatTimes sampleJson State.online
            [quietTick 30001, quietTick 40000, quietTick 60002]) := by
  have hclk : clockMonotone 0 [quietTick 30001, quietTick 40000, quietTick 60002] := by
    simp [clockMonotone, quietTick]
  exact ⟨hclk, by decide,
    (C2_heartbeat_rate_limit sampleJson State.online _ hclk).2⟩

/-! ## Container level -/

theorem containerLevel_full {d : ℚ} (h : d ≤ 8) : containerLevel d = 100 := by
  simp only [containerLevel, h, if_true, Arduino.constrain]
  norm_num [Arduino.round, Arduino.toLong]

theorem containerLevel_empty {d : ℚ} (h8 : ¬ d ≤ 8) (h : 25 / 2 ≤ d) :
    containerLevel d = 0 := by
  simp only [containerLevel, h8, if_false, ge_iff_le, h, if_true, Arduino.constrain]
  norm_num [Arduino.round, Arduino.toLong]

theorem containerLevel_between {d : ℚ} (h8 : ¬ d ≤ 8) (h : ¬ 25 / 2 ≤ d) :
    containerLevel d = Arduino.round (100 * (25 / 2 - d) / (9 / 2)) := by
  have h1 : (8 : ℚ) < d := lt_of_not_le h8
  have h2 : d < 25 / 2 := lt_of_not_le h
  have e : (25 / 2 - 8 : ℚ) = 9 / 2 := by norm_num
  have lo : ¬ (100 * (25 / 2 - d) / (9 / 2) < (0 : ℚ)) := by
    rw [not_lt]; apply div_nonneg <;> linarith
  have hi : ¬ (100 * (25 / 2 - d) / (9 / 2) > (100 : ℚ)) := by
    rw [gt_iff_lt, not_lt, div_le_iff₀ (by norm_num)]; linarith
  simp only [containerLevel, h8, if_false, ge_iff_le, h, Arduino.constrain, e, lo, hi]

theorem between_nonneg {d : ℚ} (h : ¬ 25 / 2 ≤ d) : (0 : ℚ) ≤ 100 * (25 / 2 - d) / (9 / 2) := by
  have h2 : d < 25 / 2 := lt_of_not_le h
  apply div_nonneg <;> linarith

theorem between_le {d : ℚ} (h8 : ¬ d ≤ 8) : 100 * (25 / 2 - d) / (9 / 2) ≤ (100 : ℚ) := by
  have h1 : (8 : ℚ) < d := lt_of_not_le h8
  rw [div_le_iff₀ (by norm_num)]; linarith

theorem containerLevel_spec (d : ℚ) :
    containerLevel d =
      if d ≤ 8 then 100 else if 25 / 2 ≤ d then 0
      else round (100 * (25 / 2 - d) / (9 / 2)) := by
  by_cases h8 : d ≤ 8
  · simp only [h8, if_true]; exact containerLevel_full h8
  · by_cases h : 25 / 2 ≤ d
    · simp only [h8, h, if_true, if_false]; exact containerLevel_empty h8 h
    · simp only [h8, h, if_false]
      rw [containerLevel_between h8 h, Arduino.round_of_nonneg (between_nonneg h), round_eq]

theorem containerLevel_bounds (d : ℚ) : 0 ≤ containerLevel d ∧ containerLevel d ≤ 100 := by
  by_cases h8 : d ≤ 8
  · rw [containerLevel_full h8]; omega
  · by_cases h : 25 / 2 ≤ d
    · rw [containerLevel_empty h8 h]; omega
    · rw [containerLevel_between h8 h, Arduino.round_of_nonneg (between_nonneg h)]
      constructor
      · exact Int.floor_nonneg.mpr (by linarith [between_nonneg h])
      · have hx := between_le h8
        have : Int.floor (100 * (25 / 2 - d) / (9 / 2) + 1 / 2) < 101 := by
          rw [Int.floor_lt]; push_cast; linarith
        omega

theorem containerLevel_antitone {d1 d2 : ℚ} (h : d1 ≤ d2) :
    containerLevel d2 ≤ containerLevel d1 := by
  by_cases a8 : d1 ≤ 8
  · rw [containerLevel_full a8]; exact (containerLevel_bounds d2).2
  · have b8 : ¬ d2 ≤ 8 := fun hb => a8 (le_trans h hb)
    by_cases b : 25 / 2 ≤ d2
    · rw [containerLevel_empty b8 b]; exact (containerLevel_bounds d1).1
    · have a : ¬ 25 / 2 ≤ d1 := fun ha => b (le_trans ha h)
      rw [containerLevel_between a8 a, containerLevel_between b8 b]
      apply Arduino.round_mono_of_nonneg (between_nonneg b)
      rw [div_le_div_iff_of_pos_right (by norm_num)]
      linarith

theorem levels_publishSensorData (s : State) (weight distance : ℚ) (st : String)
    (amount : ℚ) (t : Nat) (h : s.mqttConnected = true) :
    (publishSensorData s weight distance st amount t).filterMap Event.levelField
      = [containerLevel distance] := by
  simp [publishSensorData, h, Event.levelField, JsonValue.get]

theorem levels_publishSensorDataWithType (undefinedLong : Arduino.CFloat → ℤ) (s : State)
    (weight distance : ℚ) (st : String) (amount : ℚ) (p : Arduino.CFloat) (type : String)
    (t : Nat) (h : s.mqttConnected = true) :
    (publishSensorDataWithType undefinedLong s weight distance st amount p type t).filterMap
        Event.levelField
      = [Arduino.roundLong undefinedLong p] := by
  simp [publishSensorDataWithType, h, Event.levelField, JsonValue.get]

/-- C3: the container level that the 4-argument `publishSensorData` puts in the one
message it emits for distance `d` is 100 when `d ≤ 8.0`, 0 when `d ≥ 12.5`, and
`100 × (12.5 − d) / 4.5` rounded to the nearest integer when `8.0 < d < 12.5`
(distances are exact rationals). -/
theorem C3_container_level_of_distance (s : State) (weight d : ℚ) (st : String)
    (amount : ℚ) (t : Nat) (h : s.mqttConnected = true) :
    ∃ doc, publishSensorData s weight d st amount t = [Event.publish s.topic_data doc false]
      ∧ doc.get "containerLevel" =
          some (JsonValue.int
            (if d ≤ 8 then 100 else if 25 / 2 ≤ d then 0
             else round (100 * (25 / 2 - d) / (9 / 2)))) := by
  simp only [publishSensorData, h, Bool.not_true, Bool.false_eq_true, if_false]
  exact ⟨_, rfl, by simp [JsonValue.get, containerLevel_spec]⟩

/-- C3 witness: for the distance 10.25 a connected device publishes containerLevel 50. -/
theorem C3_witness_distance_10_25 :
    ∃ doc, publishSensorData State.online 0 (41 / 4) "idle" 0 0
        = [Event.publish State.online.topic_data doc false]
      ∧ doc.get "containerLevel" = some (JsonValue.int 50) := by
  obtain ⟨doc, h1, h2⟩ :=
    C3_container_level_of_distance State.online 0 (41 / 4) "idle" 0 0 rfl
  refine ⟨doc, h1, ?_⟩
  rw [h2]
  norm_num [round_eq]

/-- C4 counterexample: the 6-argument `publishSensorData`, called on a connected
device with `porcentajeLlenado = 150`, publishes containerLevel 150, outside [0,100]. -/
theorem C4_counterexample_override_150 :
    (publishSensorDataWithType undefinedAsMin State.online 0 0 "idle" 0 (.num 150) ""
        0).filterMap Event.levelField = [150]
      ∧ ¬ ((150 : ℤ) ≤ 100) := by
  refine ⟨?_, by decide⟩
  rw [levels_publishSensorDataWithType _ _ _ _ _ _ _ _ _ rfl]
  norm_num [Arduino.roundLong, Arduino.round, Arduino.toLong, Arduino.LONG_MIN,
    Arduino.LONG_MAX]

/-- C4 (amended): on a connected device the 4-argument `publishSensorData`, for every
distance that is a number, emits one message whose containerLevel is an integer in
[0,100]; the 6-argument overload emits one message whose containerLevel is
`round(porcentajeLlenado)` as the target computes it, which for a number `q` whose
rounding fits the 32-bit `long` is `q` rounded to the nearest integer, without clamping,
and then is in [0,100] exactly when `−0.5 < q < 100.5`.  Nothing is stated about the
level for NaN, an infinity or a rounding outside `long`. -/
theorem C4_container_level_range (undefinedLong : Arduino.CFloat → ℤ) (s : State)
    (weight distance : ℚ) (st : String) (amount : ℚ) (p : Arduino.CFloat) (type : String)
    (t : Nat) (h : s.mqttConnected = true) :
    (∃ n : ℤ, (publishSensorData s weight distance st amount t).filterMap Event.levelField = [n]
        ∧ 0 ≤ n ∧ n ≤ 100)
      ∧ (publishSensorDataWithType undefinedLong s weight distance st amount p type
            t).filterMap Event.levelField = [Arduino.roundLong undefinedLong p]
      ∧ (∀ q : ℚ, p = .num q →
          Arduino.LONG_MIN ≤ Arduino.round q → Arduino.round q ≤ Arduino.LONG_MAX →
          Arduino.roundLong undefinedLong p = Arduino.round q
          ∧ ((0 ≤ Arduino.roundLong undefinedLong p ∧ Arduino.roundLong undefinedLong p ≤ 100)
              ↔ (-1 / 2 < q ∧ q < 201 / 2)))
      ∧ (∀ q : ℚ, p = .num q → -2147483648 ≤ q → q ≤ 2147483647 →
          Arduino.LONG_MIN ≤ Arduino.round q ∧ Arduino.round q ≤ Arduino.LONG_MAX) := by
  refine ⟨⟨containerLevel distance, levels_publishSensorData s _ _ _ _ _ h,
    containerLevel_bounds distance⟩,
    levels_publishSensorDataWithType undefinedLong s _ _ _ _ _ _ _ h, ?_, ?_⟩
  · intro q hp hlo hhi
    have e : Arduino.roundLong undefinedLong p = Arduino.round q := by
      rw [hp]; simp [Arduino.roundLong, hlo, hhi]
    rw [e]
    exact ⟨rfl, Arduino.round_mem_percent_iff q⟩
  · intro q _ hlo hhi
    exact Arduino.round_fits_long hlo hhi

/-- C4 witness: on a connected device, distance 10.25 gives level 50 with the
4-argument overload and the override 73.4 gives level 73 with the 6-argument one. -/
theorem C4_witness_levels :
    (∃ n : ℤ, (publishSensorData State.online 0 (41 / 4) "idle" 0 0).filterMap
          Event.levelField = [n] ∧ 0 ≤ n ∧ n ≤ 100)
      ∧ (publishSensorDataWithType undefinedAsMin State.online 0 (41 / 4) "idle" 0
            (.num (367 / 5)) "food" 0).filterMap Event.levelField = [73] := by
  have h := C4_container_level_range undefinedAsMin State.online 0 (41 / 4) "idle" 0
    (.num (367 / 5)) "food" 0 rfl
  have hr : Arduino.round (367 / 5) = 73 := by
    norm_num [Arduino.round, Arduino.toLong]
  have hfit := h.2.2.2 (367 / 5) rfl (by norm_num) (by norm_num)
  refine ⟨h.1, ?_⟩
  rw [h.2.1, (h.2.2.1 (367 / 5) rfl hfit.1 hfit.2).1, hr]

/-- C5: the container level emitted by the 4-argument `publishSensorData` is
non-increasing in the distance: for `d1 ≤ d2` the level published for `d1` is at least
the level published for `d2`. -/
theorem C5_container_level_antitone (s : State) (w1 w2 d1 d2 : ℚ) (st1 st2 : String)
    (a1 a2 : ℚ) (t1 t2 : Nat) (h : s.mqttConnected = true) (hd : d1 ≤ d2) :
    ∃ n1 n2 : ℤ,
      (publishSensorData s w1 d1 st1 a1 t1).filterMap Event.levelField = [n1]
        ∧ (publishSensorData s w2 d2 st2 a2 t2).filterMap Event.levelField = [n2]
        ∧ n2 ≤ n1 :=
  ⟨containerLevel d1, containerLevel d2, levels_publishSensorData s _ _ _ _ _ h,
    levels_publishSensorData s _ _ _ _ _ h, containerLevel_antitone hd⟩

/-- C5 witness: distances 9 and 10 on a connected device. -/
theorem C5_witness_9_10 :
    (9 : ℚ) ≤ 10 ∧ ∃ n1 n2 : ℤ,
      (publishSensorData State.online 0 9 "idle" 0 0).filterMap Event.levelField = [n1]
        ∧ (publishSensorData State.online 0 10 "idle" 0 1).filterMap Event.levelField = [n2]
        ∧ n2 ≤ n1 :=
  ⟨by norm_num,
    C5_container_level_antitone State.online 0 0 9 10 "idle" "idle" 0 0 0 1 rfl (by norm_num)⟩

/-! ## Command router -/

theorem containsKey_eq_isSome (doc : JsonValue) (key : String) :
    doc.containsKey key = (doc.get key).isSome := by
  cases doc <;> simp [JsonValue.containsKey, JsonValue.get]
  case obj kvs =>
    induction kvs with
    | nil => simp
    | cons kv rest ih =>
      simp only [List.any_cons, List.find?_cons]
      cases h : (kv.1 == key) <;> simp [ih]

theorem commandName_of_command (lib : ArduinoJson) (doc : JsonValue) (v : JsonValue)
    (h : doc.get "command" = some v) : commandName lib doc = asString lib (some v) := by
  simp [commandName, containsKey_eq_isSome, h]

theorem commandName_of_action (lib : ArduinoJson) (doc : JsonValue) (v : JsonValue)
    (hc : doc.get "command" = none) (h : doc.get "action" = some v) :
    commandName lib doc = asString lib (some v) := by
  simp [commandName, containsKey_eq_isSome, hc, h]

theorem commandName_of_neither (lib : ArduinoJson) (doc : JsonValue)
    (hc : doc.get "command" = none) (h : doc.get "action" = none) :
    commandName lib doc = "" := by
  simp [commandName, containsKey_eq_isSome, hc, h]

theorem filter_isResponse_publishDiscovery (s : State) (ip : String) (t : Nat) :
    (publishDiscovery s ip t).filter Event.isResponse = [] := by
  simp [publishDiscovery, Event.isResponse, JsonValue.containsKey]

theorem onMqttMessage_commands (lib : ArduinoJson) (s : State) (message : String)
    (r : MessageReads) (doc : JsonValue) (hdec : lib.deserializeJson 200 message = some doc) :
    ((onMqttMessage lib s s.topic_commands message r).2.filter
        (fun e => e.isCallback || e.isResponse))
      = (if s.commandCallback = true ∧ commandName lib doc ≠ "" then
           [Event.callback (commandName lib doc) (commandData doc)] else [])
        ++ (if commandName lib doc ≠ "connect" then
              publishResponse s (commandName lib doc) "received" "" r.tResponse
            else []) := by
  by_cases hcb : s.commandCallback = true <;> by_cases hn : commandName lib doc = ""
    <;> by_cases hc : commandName lib doc = "connect"
    <;> by_cases hm : s.mqttConnected = true
    <;> by_cases ht : s.topic_commands = topic_discovery
    <;> by_cases ha : asString lib (doc.get "action") = "discover"
    <;> simp [onMqttMessage, hdec, hcb, hn, hc, hm, ht, ha, publishDiscovery, publishResponse,
          Event.isResponse, Event.isCallback, JsonValue.containsKey, List.filter_append]

theorem onMqttMessage_callbacks (lib : ArduinoJson) (s : State) (message : String)
    (r : MessageReads) (doc : JsonValue) (hdec : lib.deserializeJson 200 message = some doc) :
    (onMqttMessage lib s s.topic_commands message r).2.filter Event.isCallback
      = if s.commandCallback = true ∧ commandName lib doc ≠ "" then
          [Event.callback (commandName lib doc) (commandData doc)] else [] := by
  have h := congrArg (List.filter Event.isCallback) (onMqttMessage_commands lib s message r doc hdec)
  rw [List.filter_filter] at h
  have e : (fun a : Event => a.isCallback && (a.isCallback || a.isResponse)) = Event.isCallback := by
    funext a; cases a.isCallback <;> simp
  rw [e] at h
  rw [h, List.filter_append]
  have hr : (if commandName lib doc ≠ "connect" then
      publishResponse s (commandName lib doc) "received" "" r.tResponse else []).filter
        Event.isCallback = [] := by
    unfold publishResponse
    split_ifs <;> simp [Event.isCallback]
  rw [hr, List.append_nil]
  split_ifs <;> simp [Event.isCallback]

theorem generated_commands_topic_ne_discovery (id : String) :
    "fido/dispensers/" ++ id ++ "/commands" ≠ topic_discovery := by
  intro h
  have h1 := congrArg (fun x => x.data.reverse) h
  simp [String.data_append, topic_discovery] at h1

/-- C6: a commands-topic message that decodes while the session is connected makes
`onMqttMessage` publish exactly one acknowledgment, to the response topic, with the
extracted command name, result "received" and an empty message, unless the name is
"connect", in which case no acknowledgment is published; whether the callback is
registered plays no role, and the acknowledgment is published for the empty name too. -/
theorem C6_acknowledgment (lib : ArduinoJson) (s : State) (message : String)
    (r : MessageReads) (doc : JsonValue) (hconn : s.mqttConnected = true)
    (hdec : lib.deserializeJson 200 message = some doc) :
    ((onMqttMessage lib s s.topic_commands message r).2.filter Event.isResponse
        = if commandName lib doc = "connect" then []
          else [Event.publish s.topic_response
                  (.obj [("deviceId", .str s.device_id),
                         ("command", .str (commandName lib doc)),
                         ("result", .str "received"),
                         ("message", .str ""),
                         ("timestamp", .int (millis r.tResponse))])
                  false])
      ∧ (commandName lib doc = "" →
          ((onMqttMessage lib s s.topic_commands message r).2.filter Event.isResponse).length
            = 1) := by
  have key : (onMqttMessage lib s s.topic_commands message r).2.filter Event.isResponse
        = if commandName lib doc = "connect" then []
          else [Event.publish s.topic_response
                  (.obj [("deviceId", .str s.device_id),
                         ("command", .str (commandName lib doc)),
                         ("result", .str "received"),
                         ("message", .str ""),
                         ("timestamp", .int (millis r.tResponse))])
                  false] := by
    by_cases hcb : s.commandCallback = true <;> by_cases hn : commandName lib doc = ""
      <;> by_cases hc : commandName lib doc = "connect"
      <;> by_cases ht : s.topic_commands = topic_discovery
      <;> by_cases ha : asString lib (doc.get "action") = "discover"
      <;> simp [onMqttMessage, hdec, hcb, hn, hc, hconn, ht, ha, publishDiscovery,
            publishResponse, Event.isResponse, JsonValue.containsKey, List.filter_append]
  refine ⟨key, fun h0 => ?_⟩
  rw [key, h0]
  simp

/-- C6 witness: the envelope `{"command":"dispense","data":{"amount":50}}` on the
commands topic of a connected device is acknowledged once. -/
theorem C6_witness_dispense :
    (onMqttMessage sampleJson State.online State.online.topic_commands dispenseText
        (sampleReads 7)).2.filter Event.isResponse
      = [Event.publish "fido/dispensers/FIDO_123456789AB/response"
          (.obj [("deviceId", .str "FIDO_123456789AB"),
                 ("command", .str "dispense"),
                 ("result", .str "received"),
                 ("message", .str ""),
                 ("timestamp", .int 7)])
          false] := by
  have h := (C6_acknowledgment sampleJson State.online dispenseText (sampleReads 7)
    (.obj [("command", .str "dispense"), ("data", .obj [("amount", .int 50)])]) rfl rfl).1
  rw [h]
  rfl

/-- C7: for a decoded commands-topic envelope the registered callback is invoked
exactly once, before the acknowledgment, when a callback is registered and the
extracted command name is not empty, and not at all otherwise; it receives the
extracted name and, as payload, the `data` member when the envelope has one and the
whole envelope otherwise (each viewed as a `JsonObject`). -/
theorem C7_dispatch (lib : ArduinoJson) (s : State) (message : String)
    (r : MessageReads) (doc : JsonValue) (hdec : lib.deserializeJson 200 message = some doc) :
    ((onMqttMessage lib s s.topic_commands message r).2.filter
        (fun e => e.isCallback || e.isResponse)
      = (if s.commandCallback = true ∧ commandName lib doc ≠ "" then
           [Event.callback (commandName lib doc) (commandData doc)] else [])
        ++ (if commandName lib doc ≠ "connect" then
              publishResponse s (commandName lib doc) "received" "" r.tResponse
            else []))
      ∧ ((onMqttMessage lib s s.topic_commands message r).2.filter Event.isCallback
          = if s.commandCallback = true ∧ commandName lib doc ≠ "" then
              [Event.callback (commandName lib doc) (commandData doc)] else [])
      ∧ (∀ v, doc.get "data" = some v → commandData doc = asObject (some v))
      ∧ (∀ members, doc.get "data" = some (.obj members) → commandData doc = some members)
      ∧ (doc.get "data" = none → commandData doc = asObject (some doc))
      ∧ (∀ members, doc = .obj members → doc.get "data" = none →
          commandData doc = some members) := by
  refine ⟨onMqttMessage_commands lib s message r doc hdec,
    onMqttMessage_callbacks lib s message r doc hdec, ?_, ?_, ?_, ?_⟩
  · intro v h; simp [commandData, containsKey_eq_isSome, h]
  · intro m h; simp [commandData, containsKey_eq_isSome, h, asObject]
  · intro h; simp [commandData, containsKey_eq_isSome, h]
  · intro m hm h; subst hm; simp [commandData, containsKey_eq_isSome, h, asObject]

/-- C7 witness: `{"command":"dispense","data":{"amount":50}}` on the commands topic of
a connected device with a callback invokes the callback with `("dispense",
{"amount":50})` and then publishes the acknowledgment. -/
theorem C7_witness_dispense :
    (onMqttMessage sampleJson State.online State.online.topic_commands dispenseText
        (sampleReads 7)).2.filter (fun e => e.isCallback || e.isResponse)
      = [Event.callback "dispense" (some [("amount", .int 50)]),
         Event.publish "fido/dispensers/FIDO_123456789AB/response"
          (.obj [("deviceId", .str "FIDO_123456789AB"),
                 ("command", .str "dispense"),
                 ("result", .str "received"),
                 ("message", .str ""),
                 ("timestamp", .int 7)])
          false] := by
  have h := (C7_dispatch sampleJson State.online dispenseText (sampleReads 7)
    (.obj [("command", .str "dispense"), ("data", .obj [("amount", .int 50)])]) rfl).1
  rw [h]
  rfl

theorem callback_mem_onMqttMessage (lib : ArduinoJson) (s : State) (message : String)
    (r : MessageReads) (doc : JsonValue) (hdec : lib.deserializeJson 200 message = some doc)
    (c : String) (d : JsonObject)
    (h : Event.callback c d ∈ (onMqttMessage lib s s.topic_commands message r).2) :
    c = commandName lib doc ∧ d = commandData doc := by
  by_cases hcb : s.commandCallback = true <;> by_cases hn : commandName lib doc = ""
    <;> by_cases hc : commandName lib doc = "connect"
    <;> by_cases hm : s.mqttConnected = true
    <;> by_cases ht : s.topic_commands = topic_discovery
    <;> by_cases ha : asString lib (doc.get "action") = "discover"
    <;> simp [onMqttMessage, hdec, hcb, hn, hc, hm, ht, ha, publishDiscovery,
          publishResponse] at h
    <;> first | exact h | (rw [hc]; exact h)

/-- C8: the command name `onMqttMessage` extracts from a decoded envelope is the value
of the member `command` when the envelope has one (whether or not it also has
`action`), else the value of the member `action` when it has one, else the empty
string; a string value is taken as it is, and the extracted name is the one passed to
the callback. -/
theorem C8_command_name_extraction (lib : ArduinoJson) (doc : JsonValue) :
    (∀ v, doc.get "command" = some v → commandName lib doc = asString lib (some v))
      ∧ (∀ name, doc.get "command" = some (.str name) → commandName lib doc = name)
      ∧ (doc.get "command" = none → ∀ v, doc.get "action" = some v →
          commandName lib doc = asString lib (some v))
      ∧ (doc.get "command" = none → ∀ name, doc.get "action" = some (.str name) →
          commandName lib doc = name)
      ∧ (doc.get "command" = none → doc.get "action" = none → commandName lib doc = "")
      ∧ (∀ (s : State) (message : String) (r : MessageReads) (c : String) (d : JsonObject),
          lib.deserializeJson 200 message = some doc →
          Event.callback c d ∈ (onMqttMessage lib s s.topic_commands message r).2 →
          c = commandName lib doc) := by
  refine ⟨fun v h => commandName_of_command lib doc v h, ?_,
    fun hc v h => commandName_of_action lib doc v hc h, ?_,
    fun hc h => commandName_of_neither lib doc hc h, ?_⟩
  · intro name h
    rw [commandName_of_command lib doc _ h]; rfl
  · intro hc name h
    rw [commandName_of_action lib doc _ hc h]; rfl
  · intro s message r c d hdec h
    exact (callback_mem_onMqttMessage lib s message r doc hdec c d h).1

/-- C8 witness: an envelope with both members, `{"action":"ping","command":"connect"}`,
yields the name of its `command` member. -/
theorem C8_witness_command_over_action :
    commandName sampleJson (.obj [("action", .str "ping"), ("command", .str "connect")])
      = "connect" :=
  (C8_command_name_extraction sampleJson
    (.obj [("action", .str "ping"), ("command", .str "connect")])).2.1 "connect" rfl

/-- C9: when the payload of a received message fails to decode, `onMqttMessage` makes
no call at all (no callback invocation, no publish) and leaves every global unchanged;
this holds on the commands topic and on any other topic. -/
theorem C9_decode_failure_discarded (lib : ArduinoJson) (s : State) (topic message : String)
    (r : MessageReads) (hdec : lib.deserializeJson 200 message = none) :
    onMqttMessage lib s topic message r = (s, []) := by
  simp [onMqttMessage, hdec]

/-- C9 witness: the malformed text `{"command":` on the commands topic of a connected
device with a callback. -/
theorem C9_witness_malformed :
    onMqttMessage sampleJson State.online State.online.topic_commands malformedText
        (sampleReads 7) = (State.online, []) :=
  C9_decode_failure_discarded sampleJson State.online State.online.topic_commands
    malformedText (sampleReads 7) rfl

/-- C10: the commands topic built by `generateDeviceID` (and the initial, empty one)
is never the discovery topic; and when the commands topic differs from the discovery
topic, a message received on the discovery topic makes `onMqttMessage` publish exactly
one retained discovery message if it decodes with `action` equal to "discover", and
make no call at all otherwise, so that the callback is not invoked and no
acknowledgment is published in either case. -/
theorem C10_discovery_request (lib : ArduinoJson) (s : State) (message : String)
    (r : MessageReads) (hne : s.topic_commands ≠ topic_discovery) :
    (∀ (s0 : State) (chipid : Nat),
        (generateDeviceID s0 chipid).1.topic_commands ≠ topic_discovery)
      ∧ State.initial.topic_commands ≠ topic_discovery
      ∧ (∀ doc, lib.deserializeJson 200 message = some doc →
          asString lib (doc.get "action") = "discover" →
          (onMqttMessage lib s topic_discovery message r).2
            = [Event.publish topic_discovery
                (.obj [("deviceId", .str s.device_id),
                       ("name", .str device_name),
                       ("type", .str "smart_dispenser"),
                       ("version", .str "1.0.0"),
                       ("ip", .str r.ip),
                       ("timestamp", .int (millis r.tDiscovery)),
                       ("isAvailable", .bool true),
                       ("batteryLevel", .int 100)])
                true])
      ∧ (∀ doc, lib.deserializeJson 200 message = some doc →
          asString lib (doc.get "action") ≠ "discover" →
          (onMqttMessage lib s topic_discovery message r).2 = [])
      ∧ (lib.deserializeJson 200 message = none →
          (onMqttMessage lib s topic_discovery message r).2 = [])
      ∧ (∀ e ∈ (onMqttMessage lib s topic_discovery message r).2,
          e.isCallback = false ∧ e.isResponse = false) := by
  have hne' : ¬ topic_discovery = s.topic_commands := fun h => hne h.symm
  refine ⟨fun s0 chipid => generated_commands_topic_ne_discovery _, by decide, ?_, ?_, ?_, ?_⟩
  · intro doc hdec ha
    simp [onMqttMessage, hdec, ha, hne', publishDiscovery]
  · intro doc hdec ha
    simp [onMqttMessage, hdec, ha, hne']
  · intro hdec
    simp [onMqttMessage, hdec]
  · intro e he
    cases hdec : lib.deserializeJson 200 message with
    | none => simp [onMqttMessage, hdec] at he
    | some doc =>
      by_cases ha : asString lib (doc.get "action") = "discover"
      · simp [onMqttMessage, hdec, ha, hne', publishDiscovery] at he
        subst he
        simp [Event.isCallback, Event.isResponse, JsonValue.containsKey]
      · simp [onMqttMessage, hdec, ha, hne'] at he

/-- C10 witness: `{"action":"discover"}` on the discovery topic of a connected device
with a callback: one retained discovery message and nothing else. -/
theorem C10_witness_discover :
    (onMqttMessage sampleJson State.online topic_discovery discoverText (sampleReads 7)).2
      = [Event.publish "fido/dispensers/discovery"
          (.obj [("deviceId", .str "FIDO_123456789AB"),
                 ("name", .str "FIDO_Dispenser"),
                 ("type", .str "smart_dispenser"),
                 ("version", .str "1.0.0"),
                 ("ip", .str "192.168.1.50"),
                 ("timestamp", .int 7),
                 ("isAvailable", .bool true),
                 ("batteryLevel", .int 100)])
          true] :=
  (C10_discovery_request sampleJson State.online discoverText (sampleReads 7)
    (by decide)).2.2.1 (.obj [("action", .str "discover")]) rfl rfl

/-! ## Device identity -/

theorem toUpper_append (a b : String) : (a ++ b).toUpper = a.toUpper ++ b.toUpper := by
  apply String.ext
  simp [String.toUpper, String.map_eq, String.data_append]

theorem toUpper_hexString (n : Nat) : (hexString n).toUpper = upperHexDigits n := by
  simp [String.toUpper, String.map_eq, hexString, upperHexDigits]

theorem device_id_eq (s : State) (chipid : Nat) :
    (generateDeviceID s chipid).1.device_id
      = "FIDO_" ++ upperHexDigits ((chipid / 4294967296) % 4294967296)
          ++ upperHexDigits (chipid % 4294967296) := by
  have h : ("FIDO_" : String).toUpper = "FIDO_" := by
    apply String.ext
    simp [String.toUpper, String.map_eq]
  simp only [generateDeviceID, toUpper_append, toUpper_hexString, h]

/-- C13: for every 48-bit hardware value `h` and every prior state, `generateDeviceID`
sets `device_id` to "FIDO_" followed by the upper-case hexadecimal digits of the high 32
bits of `h` and then of the low 32 bits of `h`, sets the four per-device topics to
"fido/dispensers/" + device_id + "/status", "/data", "/commands", "/response", writes no
other global, and a second call with the same `h` changes nothing; the id and topics do
not depend on the prior state. -/
theorem C13_generateDeviceID (s s2 : State) (h : Nat) (hh : h < 281474976710656) :
    (generateDeviceID s h).1.device_id
        = "FIDO_" ++ upperHexDigits (h / 4294967296) ++ upperHexDigits (h % 4294967296)
      ∧ (generateDeviceID s h).1
          = { s with
              device_id := (generateDeviceID s h).1.device_id,
              topic_status := "fido/dispensers/" ++ (generateDeviceID s h).1.device_id ++ "/status",
              topic_data := "fido/dispensers/" ++ (generateDeviceID s h).1.device_id ++ "/data",
              topic_commands :=
                "fido/dispensers/" ++ (generateDeviceID s h).1.device_id ++ "/commands",
              topic_response :=
                "fido/dispensers/" ++ (generateDeviceID s h).1.device_id ++ "/response" }
      ∧ generateDeviceID (generateDeviceID s h).1 h = generateDeviceID s h
      ∧ (generateDeviceID s2 h).1.device_id = (generateDeviceID s h).1.device_id
      ∧ (generateDeviceID s2 h).1.topic_status = (generateDeviceID s h).1.topic_status
      ∧ (generateDeviceID s2 h).1.topic_data = (generateDeviceID s h).1.topic_data
      ∧ (generateDeviceID s2 h).1.topic_commands = (generateDeviceID s h).1.topic_commands
      ∧ (generateDeviceID s2 h).1.topic_response = (generateDeviceID s h).1.topic_response := by
  have e : (h / 4294967296) % 4294967296 = h / 4294967296 := by omega
  refine ⟨?_, rfl, rfl, rfl, rfl, rfl, rfl, rfl⟩
  rw [device_id_eq, e]

/-- C13 witness: the hardware value `0x0123456789AB` gives the id "FIDO_123456789AB". -/
theorem C13_witness_0123456789AB :
    (generateDeviceID State.initial 0x0123456789AB).1.device_id = "FIDO_123456789AB"
      ∧ (generateDeviceID State.initial 0x0123456789AB).1.topic_commands
          = "fido/dispensers/FIDO_123456789AB/commands"
      ∧ generateDeviceID (generateDeviceID State.initial 0x0123456789AB).1 0x0123456789AB
          = generateDeviceID State.initial 0x0123456789AB := by
  have h := C13_generateDeviceID State.initial State.online 0x0123456789AB (by norm_num)
  have hid : (generateDeviceID State.initial 0x0123456789AB).1.device_id
      = "FIDO_123456789AB" := by
    rw [h.1]; decide
  refine ⟨hid, ?_, h.2.2.1⟩
  show "fido/dispensers/" ++ (generateDeviceID State.initial 0x0123456789AB).1.device_id
      ++ "/commands" = _
  rw [hid]; decide

/-- C14 (evaluation of the code at the failing input): the two distinct 48-bit
hardware values `0x0CBB0A286F24` and `0xCBBA00286F24` get the same device id,
"FIDO_CBBA286F24", and hence the same topics. -/
theorem C14_distinct_hardware_same_id :
    (0x0CBB0A286F24 : Nat) ≠ 0xCBBA00286F24
      ∧ (0x0CBB0A286F24 : Nat) < 281474976710656 ∧ (0xCBBA00286F24 : Nat) < 281474976710656
      ∧ (generateDeviceID State.initial 0x0CBB0A286F24).1.device_id = "FIDO_CBBA286F24"
      ∧ (generateDeviceID State.initial 0xCBBA00286F24).1.device_id = "FIDO_CBBA286F24"
      ∧ (generateDeviceID State.initial 0x0CBB0A286F24).1
          = (generateDeviceID State.initial 0xCBBA00286F24).1 := by
  have h1 : (generateDeviceID State.initial 0x0CBB0A286F24).1.device_id = "FIDO_CBBA286F24" := by
    rw [device_id_eq]; decide
  have h2 : (generateDeviceID State.initial 0xCBBA00286F24).1.device_id = "FIDO_CBBA286F24" := by
    rw [device_id_eq]; decide
  refine ⟨by decide, by decide, by decide, h1, h2, ?_⟩
  have e : ∀ c, (generateDeviceID State.initial c).1
      = { State.initial with
          device_id := (generateDeviceID State.initial c).1.device_id,
          topic_status := "fido/dispensers/" ++ (generateDeviceID State.initial c).1.device_id
            ++ "/status",
          topic_data := "fido/dispensers/" ++ (generateDeviceID State.initial c).1.device_id
            ++ "/data",
          topic_commands := "fido/dispensers/" ++ (generateDeviceID State.initial c).1.device_id
            ++ "/commands",
          topic_response := "fido/dispensers/" ++ (generateDeviceID State.initial c).1.device_id
            ++ "/response" } := fun _ => rfl
  rw [e 0x0CBB0A286F24, e 0xCBBA00286F24, h1, h2]

/-! ## Network link and broker session -/

theorem connectWiFiLoop_spec (status : Nat → Bool) :
    ∀ (n a : Nat), a + n = 20 →
      (connectWiFiLoop status a).1 ≤ 20
        ∧ a ≤ (connectWiFiLoop status a).1
        ∧ (connectWiFiLoop status a).2
            = List.replicate ((connectWiFiLoop status a).1 - a) (Event.delay 500)
        ∧ (∀ k, a ≤ k → k < (connectWiFiLoop status a).1 → status k = false)
        ∧ ((connectWiFiLoop status a).1 < 20 → status (connectWiFiLoop status a).1 = true) := by
  intro n
  induction n with
  | zero =>
    intro a ha
    have h20 : ¬ a < 20 := by omega
    have e : connectWiFiLoop status a = (a, []) := by
      rw [connectWiFiLoop]; simp [h20]
    rw [e]
    refine ⟨by simp; omega, le_refl _, by simp, fun k h1 h2 => ?_, fun h => ?_⟩
    · simp at h2; omega
    · simp at h; omega
  | succ n ih =>
    intro a ha
    have h20 : a < 20 := by omega
    obtain ⟨i1, i2, i3, i4, i5⟩ := ih (a + 1) (by omega)
    cases hs : status a
    · have e : connectWiFiLoop status a
          = ((connectWiFiLoop status (a + 1)).1,
              Event.delay 500 :: (connectWiFiLoop status (a + 1)).2) := by
        rw [connectWiFiLoop]; simp [hs, h20]
      rw [e]
      refine ⟨i1, by simp only; omega, ?_, ?_, i5⟩
      · simp only
        rw [i3, ← List.replicate_succ]
        congr 1
        omega
      · intro k hk1 hk2
        rcases Nat.eq_or_lt_of_le hk1 with rfl | hlt
        · exact hs
        · exact i4 k hlt hk2
    · have e : connectWiFiLoop status a = (a, []) := by
        rw [connectWiFiLoop]; simp [hs]
      rw [e]
      refine ⟨by simp only; omega, le_refl _, by simp, fun k h1 h2 => ?_, fun _ => hs⟩
      simp only at h2; omega

theorem connectWiFi_exit (s : State) (status : Nat → Bool) :
    ∃ n, n ≤ 20
      ∧ (connectWiFi s status).2.2
          = Event.wifiBegin ssid password :: List.replicate n (Event.delay 500)
      ∧ (∀ k, k < n → status k = false)
      ∧ (n < 20 → status n = true)
      ∧ (connectWiFi s status).2.1 = status (n + 1)
      ∧ (connectWiFi s status).1 = { s with wifiConnected := status (n + 1) } := by
  obtain ⟨l1, _, l3, l4, l5⟩ := connectWiFiLoop_spec status 20 0 (by omega)
  have hret : (connectWiFi s status).2.1 = status ((connectWiFiLoop status 0).1 + 1) := by
    by_cases h : status ((connectWiFiLoop status 0).1 + 1) = true <;> simp [connectWiFi, h]
  have hst : (connectWiFi s status).1
      = { s with wifiConnected := status ((connectWiFiLoop status 0).1 + 1) } := by
    by_cases h : status ((connectWiFiLoop status 0).1 + 1) = true <;> simp [connectWiFi, h]
  have hev : (connectWiFi s status).2.2
      = Event.wifiBegin ssid password :: (connectWiFiLoop status 0).2 := by
    by_cases h : status ((connectWiFiLoop status 0).1 + 1) = true <;> simp [connectWiFi, h]
  refine ⟨(connectWiFiLoop status 0).1, l1, ?_, fun k hk => l4 k (Nat.zero_le _) hk, l5, hret,
    hst⟩
  rw [hev, l3]; rfl

/-- C15 counterexample: a link that reports connected at reading 3 only makes
`connectWiFi` leave the loop after three pauses and return false, because the reading
taken after the loop (reading 4) reports not connected; and a link that reports
connected at none of the readings 0 to 20 of the polling loop, but at reading 21, makes
`connectWiFi` return true after 20 pauses. -/
theorem C15_counterexample_reading_after_loop :
    linkUpOnlyAtThree 3 = true
      ∧ (connectWiFi State.initial linkUpOnlyAtThree).2.1 = false
      ∧ (connectWiFi State.initial linkUpOnlyAtThree).2.2
          = Event.wifiBegin ssid password :: List.replicate 3 (Event.delay 500)
      ∧ (∀ k, k ≤ 20 → linkUpFromTwentyOne k = false)
      ∧ (connectWiFi State.initial linkUpFromTwentyOne).2.1 = true
      ∧ (connectWiFi State.initial linkUpFromTwentyOne).2.2
          = Event.wifiBegin ssid password :: List.replicate 20 (Event.delay 500) := by
  obtain ⟨n, hn, hev, hfalse, htrue, hret, _⟩ := connectWiFi_exit State.initial linkUpOnlyAtThree
  obtain ⟨m, hm, hev2, _, htrue2, hret2, _⟩ :=
    connectWiFi_exit State.initial linkUpFromTwentyOne
  have h3 : ¬ 3 < n := fun h => by
    have := hfalse 3 h
    simp [linkUpOnlyAtThree] at this
  have hn3 : n = 3 := by
    by_contra hne
    have := htrue (by omega)
    simp [linkUpOnlyAtThree] at this
    exact hne this
  have hm20 : m = 20 := by
    by_contra hne
    have := htrue2 (by omega)
    simp [linkUpFromTwentyOne] at this
    omega
  subst hn3
  subst hm20
  refine ⟨by decide, ?_, hev, ?_, ?_, hev2⟩
  · rw [hret]; decide
  · intro k hk
    simp [linkUpFromTwentyOne]
    omega
  · rw [hret2]; decide

/-- C15 (amended): for every sequence of link-status readings `connectWiFi` returns,
after one `WiFi.begin` and `n ≤ 20` pauses of 500 ms, where the readings before reading
`n` all report not connected and reading `n` reports connected unless `n = 20`; it then
takes one more reading and returns its value, true when that reading reports connected and
false otherwise, stores the returned value in `wifiConnected` and writes no other global.
So it returns false when no reading reports connected, and true when the link, once it
reports connected within the readings, keeps reporting connected. -/
theorem C15_connectWiFi_bounded (s : State) (status : Nat → Bool) :
    (∃ n, n ≤ 20
        ∧ (connectWiFi s status).2.2
            = Event.wifiBegin ssid password :: List.replicate n (Event.delay 500)
        ∧ (∀ k, k < n → status k = false)
        ∧ (n < 20 → status n = true)
        ∧ (connectWiFi s status).2.1 = status (n + 1))
      ∧ (connectWiFi s status).1 = { s with wifiConnected := (connectWiFi s status).2.1 }
      ∧ (connectWiFi s status).1.wifiConnected = (connectWiFi s status).2.1
      ∧ ((∀ k, k ≤ 21 → status k = false) → (connectWiFi s status).2.1 = false)
      ∧ ((∀ i j, i ≤ j → status i = true → status j = true) →
          (∃ k, k ≤ 21 ∧ status k = true) → (connectWiFi s status).2.1 = true) := by
  obtain ⟨n, hn, hev, hfalse, htrue, hret, hst⟩ := connectWiFi_exit s status
  refine ⟨⟨n, hn, hev, hfalse, htrue, hret⟩, by rw [hst, hret], by rw [hst, hret], ?_, ?_⟩
  · intro h; rw [hret]; exact h _ (by omega)
  · intro hmono ⟨k, hk, hkt⟩
    rw [hret]
    by_cases h20 : n < 20
    · exact hmono _ _ (Nat.le_succ _) (htrue h20)
    · have e : n = 20 := by omega
      rw [e]
      exact hmono k 21 hk hkt

/-- C15 witness: a link that reports connected from its fourth reading on makes
`connectWiFi` return true and set `wifiConnected`; a link that never reports connected
makes it return false. -/
theorem C15_witness_up_after_three :
    (connectWiFi State.initial linkUpAfterThree).2.1 = true
      ∧ (connectWiFi State.initial linkUpAfterThree).1.wifiConnected = true
      ∧ (connectWiFi State.initial linkNeverUp).2.1 = false := by
  have h := C15_connectWiFi_bounded State.initial linkUpAfterThree
  have h2 := C15_connectWiFi_bounded State.initial linkNeverUp
  have ht : (connectWiFi State.initial linkUpAfterThree).2.1 = true :=
    h.2.2.2.2 (fun i j hij hi => by simp [linkUpAfterThree] at *; omega)
      ⟨3, by omega, by simp [linkUpAfterThree]⟩
  exact ⟨ht, by rw [h.2.2.1, ht], h2.2.2.2.1 (fun _ _ => rfl)⟩

/-- C16: `connectMQTT` with the link down returns false, makes no call and changes no
global; with the link up and a successful handshake it sets `mqttConnected`, returns true
and, after the handshake, subscribes to the commands topic, subscribes to the discovery
topic, publishes the retained discovery message and publishes the status message "online",
in this order; with the link up and a failed handshake it clears `mqttConnected`, returns
false and neither subscribes nor publishes. -/
theorem C16_connectMQTT_transitions (s : State) (r : ConnectReads) :
    (s.wifiConnected = false → connectMQTT s r = (s, false, []))
      ∧ (s.wifiConnected = true → r.handshake = true →
          connectMQTT s r
            = ({ s with mqttConnected := true }, true,
                [Event.setServer mqtt_server mqtt_port, Event.setCallback,
                 Event.connect s.device_id mqtt_user mqtt_password,
                 Event.subscribe s.topic_commands,
                 Event.subscribe topic_discovery,
                 Event.publish topic_discovery
                   (.obj [("deviceId", .str s.device_id),
                          ("name", .str device_name),
                          ("type", .str "smart_dispenser"),
                          ("version", .str "1.0.0"),
                          ("ip", .str r.ip),
                          ("timestamp", .int (millis r.tDiscovery)),
                          ("isAvailable", .bool true),
                          ("batteryLevel", .int 100)])
                   true,
                 Event.publish s.topic_status
                   (.obj [("deviceId", .str s.device_id),
                          ("status", .str "online"),
                          ("description", .str "Sistema iniciado"),
                          ("timestamp", .int (millis r.tStatus)),
                          ("isOnline", .bool true)])
                   false]))
      ∧ (s.wifiConnected = true → r.handshake = false →
          connectMQTT s r
            = ({ s with mqttConnected := false }, false,
                [Event.setServer mqtt_server mqtt_port, Event.setCallback,
                 Event.connect s.device_id mqtt_user mqtt_password])) := by
  refine ⟨fun hw => ?_, fun hw hh => ?_, fun hw hh => ?_⟩
  · simp [connectMQTT, hw]
  · simp [connectMQTT, hw, hh, publishDiscovery, publishStatus]
  · simp [connectMQTT, hw, hh]

/-- C16 witness: with the link up, a successful handshake connects the session and a
failed one leaves it disconnected. -/
theorem C16_witness_link_up :
    (connectMQTT State.linkUp (connectedReads 10500)).1.mqttConnected = true
      ∧ (connectMQTT State.linkUp (connectedReads 10500)).2.1 = true
      ∧ (connectMQTT State.linkUp (refusedReads 10500)).2.1 = false
      ∧ connectMQTT State.initial (connectedReads 10500) = (State.initial, false, []) := by
  have h := C16_connectMQTT_transitions State.linkUp (connectedReads 10500)
  have h2 := C16_connectMQTT_transitions State.linkUp (refusedReads 10500)
  have h3 := C16_connectMQTT_transitions State.initial (connectedReads 10500)
  refine ⟨?_, ?_, ?_, h3.1 rfl⟩
  · rw [h.2.1 rfl rfl]
  · rw [h.2.1 rfl rfl]
  · rw [h2.2.2 rfl rfl]

theorem connectWiFi_ret (s : State) (status : Nat → Bool) :
    (connectWiFi s status).2.1 = status ((connectWiFiLoop status 0).1 + 1) := by
  by_cases h : status ((connectWiFiLoop status 0).1 + 1) = true <;> simp [connectWiFi, h]

theorem connectWiFi_state (s : State) (status : Nat → Bool) :
    (connectWiFi s status).1 = { s with wifiConnected := (connectWiFi s status).2.1 } := by
  by_cases h : status ((connectWiFiLoop status 0).1 + 1) = true <;> simp [connectWiFi, h]

/-! ## Session implies link -/

theorem connectMQTT_flags (s : State) (r : ConnectReads) :
    (connectMQTT s r).1.wifiConnected = s.wifiConnected
      ∧ ((connectMQTT s r).1.mqttConnected = true →
          s.wifiConnected = true ∨ s.mqttConnected = true)
      ∧ (s.wifiConnected = false → (connectMQTT s r).1.mqttConnected = s.mqttConnected) := by
  cases hw : s.wifiConnected <;> cases hh : r.handshake <;> simp [connectMQTT, hw, hh]

theorem connectMQTT_inv (s : State) (r : ConnectReads)
    (h : s.mqttConnected = true → s.wifiConnected = true) :
    (connectMQTT s r).1.mqttConnected = true → (connectMQTT s r).1.wifiConnected = true := by
  obtain ⟨h1, h2, _⟩ := connectMQTT_flags s r
  intro hm
  rw [h1]
  rcases h2 hm with hw | hm'
  · exact hw
  · exact h hm'

theorem reconnectBlock_inv (s : State) (r : TickReads)
    (h : s.mqttConnected = true → s.wifiConnected = true) :
    (reconnectBlock s r).1.mqttConnected = true → (reconnectBlock s r).1.wifiConnected = true := by
  simp only [reconnectBlock]
  split_ifs
  · exact connectMQTT_inv s r.connect h
  · exact connectMQTT_inv s r.connect h
  · exact h
  · exact h

theorem heartbeatBlock_wifi (lib : ArduinoJson) (s : State) (r : TickReads) :
    (heartbeatBlock lib s r).1.wifiConnected = s.wifiConnected := by
  simp only [heartbeatBlock]
  split_ifs <;> simp [deliver_fst]

theorem maintain_inv (lib : ArduinoJson) (s : State) (r : TickReads)
    (h : s.mqttConnected = true → s.wifiConnected = true) :
    (maintainMQTTConnection lib s r).1.mqttConnected = true →
      (maintainMQTTConnection lib s r).1.wifiConnected = true := by
  show (heartbeatBlock lib (reconnectBlock s r).1 r).1.mqttConnected = true →
    (heartbeatBlock lib (reconnectBlock s r).1 r).1.wifiConnected = true
  rw [heartbeatBlock_connected, heartbeatBlock_wifi]
  exact reconnectBlock_inv s r h

theorem initConnectivity_inv (s : State) (chipid : Nat) (status : Nat → Bool)
    (r : ConnectReads)
    (hk : (connectWiFi (generateDeviceID s chipid).1 status).2.1 = false →
      s.mqttConnected = false) :
    (initConnectivity s chipid status r).1.mqttConnected = true →
      (initConnectivity s chipid status r).1.wifiConnected = true := by
  simp only [initConnectivity]
  cases hw : (connectWiFi (generateDeviceID s chipid).1 status).2.1
  · have hm := hk hw
    simp only [Bool.false_eq_true, if_false]
    rw [connectWiFi_state]
    simp [generateDeviceID, hm]
  · simp only [if_true]
    apply connectMQTT_inv
    intro _
    rw [connectWiFi_state, hw]

theorem applyOp_inv (lib : ArduinoJson) (s : State) (op : Op)
    (h : s.mqttConnected = true → s.wifiConnected = true)
    (hk : linkFails s op = true → s.mqttConnected = false) :
    (applyOp lib s op).mqttConnected = true → (applyOp lib s op).wifiConnected = true := by
  cases op with
  | generateDeviceID chipid => exact h
  | connectWiFi status =>
    simp only [applyOp]
    rw [connectWiFi_state]
    intro hm
    have hm' : s.mqttConnected = true := hm
    cases hr : (connectWiFi s status).2.1
    · have := hk (by simp [linkFails, hr])
      rw [this] at hm'
      exact absurd hm' (by decide)
    · rfl
  | connectMQTT r => exact connectMQTT_inv s r h
  | initConnectivity chipid status r =>
    apply initConnectivity_inv
    intro hf
    exact hk (by simp [linkFails, hf])
  | maintainMQTTConnection r => exact maintain_inv lib s r h
  | onMqttMessage topic message r => exact h
  | setCommandCallback callback => exact h
  | publishDiscovery _ _ => exact h
  | publishStatus _ _ _ => exact h
  | publishSensorData _ _ _ _ _ => exact h
  | publishSensorDataWithType _ _ _ _ _ _ _ => exact h
  | publishResponse _ _ _ _ => exact h

theorem runOps_inv (lib : ArduinoJson) :
    ∀ (ops : List Op) (s : State), (s.mqttConnected = true → s.wifiConnected = true) →
      linkKept lib s ops →
      (runOps lib s ops).mqttConnected = true → (runOps lib s ops).wifiConnected = true := by
  intro ops
  induction ops with
  | nil => intro s h _; exact h
  | cons op rest ih =>
    intro s h hk
    exact ih _ (applyOp_inv lib s op h hk.1) hk.2

/-- C11 counterexample: from the initial state, a successful `connectWiFi`, a
successful `connectMQTT` and then a `connectWiFi` that fails leave `mqttConnected` true
and `wifiConnected` false. -/
theorem C11_counterexample_link_lost :
    (runOps sampleJson State.initial
        [Op.connectWiFi linkAlwaysUp, Op.connectMQTT (connectedReads 10500),
         Op.connectWiFi linkNeverUp]).mqttConnected = true
      ∧ (runOps sampleJson State.initial
        [Op.connectWiFi linkAlwaysUp, Op.connectMQTT (connectedReads 10500),
         Op.connectWiFi linkNeverUp]).wifiConnected = false := by
  simp [runOps, applyOp, connectWiFi_state, connectWiFi_ret, linkAlwaysUp, linkNeverUp,
    connectMQTT, connectedReads, State.initial]

/-- C11 (amended): in every state reached from the initial state by a sequence of calls
of `generateDeviceID`, `connectWiFi`, `connectMQTT`, `initConnectivity`,
`maintainMQTTConnection`, `setCommandCallback`, the publish functions and message
receipt, with any outcomes of the link and the broker, in which no `connectWiFi` (direct
or inside `initConnectivity`) returns false while `mqttConnected` is true,
`mqttConnected = true` implies `wifiConnected = true`; a `connectWiFi` that returns false
clears `wifiConnected` and leaves `mqttConnected` as it is. -/
theorem C11_session_implies_link (lib : ArduinoJson) (ops : List Op)
    (hk : linkKept lib State.initial ops) :
    ((runOps lib State.initial ops).mqttConnected = true →
        (runOps lib State.initial ops).wifiConnected = true)
      ∧ (∀ (s : State) (status : Nat → Bool), (connectWiFi s status).2.1 = false →
          (connectWiFi s status).1.wifiConnected = false
          ∧ (connectWiFi s status).1.mqttConnected = s.mqttConnected) := by
  refine ⟨runOps_inv lib ops State.initial (fun h => absurd h (by decide)) hk, ?_⟩
  intro s status hf
  rw [connectWiFi_state, hf]
  exact ⟨rfl, rfl⟩

/-- C11 witness: `initConnectivity` with the link up and a successful handshake, then
one maintenance tick: both flags are true. -/
theorem C11_witness_boot_then_tick :
    linkKept sampleJson State.initial
        [Op.initConnectivity 0x0123456789AB linkAlwaysUp (connectedReads 10500),
         Op.maintainMQTTConnection (quietTick 30001)]
      ∧ (runOps sampleJson State.initial
          [Op.initConnectivity 0x0123456789AB linkAlwaysUp (connectedReads 10500),
           Op.maintainMQTTConnection (quietTick 30001)]).mqttConnected = true
      ∧ (runOps sampleJson State.initial
          [Op.initConnectivity 0x0123456789AB linkAlwaysUp (connectedReads 10500),
           Op.maintainMQTTConnection (quietTick 30001)]).wifiConnected = true := by
  have hk : linkKept sampleJson State.initial
      [Op.initConnectivity 0x0123456789AB linkAlwaysUp (connectedReads 10500),
       Op.maintainMQTTConnection (quietTick 30001)] := by
    simp [linkKept, linkFails, connectWiFi_ret, linkAlwaysUp]
  have hm : (runOps sampleJson State.initial
      [Op.initConnectivity 0x0123456789AB linkAlwaysUp (connectedReads 10500),
       Op.maintainMQTTConnection (quietTick 30001)]).mqttConnected = true := by
    simp [runOps, applyOp, initConnectivity, connectWiFi_ret, connectWiFi_state, linkAlwaysUp,
      connectMQTT, connectedReads, maintainMQTTConnection, reconnectBlock, heartbeatBlock,
      quietTick, deliver, generateDeviceID]
    split_ifs <;> rfl
  exact ⟨hk, hm, (C11_session_implies_link sampleJson _ hk).1 hm⟩

/-! ## Session loss -/

theorem maintain_mqttConnected (lib : ArduinoJson) (s : State) (r : TickReads) :
    (maintainMQTTConnection lib s r).1.mqttConnected = (reconnectBlock s r).1.mqttConnected := by
  show (heartbeatBlock lib (reconnectBlock s r).1 r).1.mqttConnected = _
  rw [heartbeatBlock_connected]

theorem maintain_wifiConnected (lib : ArduinoJson) (s : State) (r : TickReads) :
    (maintainMQTTConnection lib s r).1.wifiConnected = (reconnectBlock s r).1.wifiConnected := by
  show (heartbeatBlock lib (reconnectBlock s r).1 r).1.wifiConnected = _
  rw [heartbeatBlock_wifi]

theorem deliver_no_connect (lib : ArduinoJson) (s : State) (inbox : List Frame) :
    (deliver lib s inbox).2.any Event.isConnect = false := by
  induction inbox generalizing s with
  | nil => rfl
  | cons f rest ih =>
    simp only [deliver, List.any_append, Bool.or_eq_false_iff]
    refine ⟨?_, ih _⟩
    cases hdec : lib.deserializeJson 200 f.message
    · simp [onMqttMessage, hdec]
    · simp only [onMqttMessage, hdec, List.any_append, Bool.or_eq_false_iff]
      refine ⟨?_, ?_⟩
      · split_ifs <;> simp [publishDiscovery, Event.isConnect]
      · split_ifs <;> simp [publishResponse, Event.isConnect]

theorem heartbeatBlock_no_connect (lib : ArduinoJson) (s : State) (r : TickReads) :
    (heartbeatBlock lib s r).2.any Event.isConnect = false := by
  simp only [heartbeatBlock]
  split_ifs <;> simp [deliver_no_connect, Event.isConnect, publishStatus]

theorem reconnectBlock_attempts (s : State) (r : TickReads) :
    (reconnectBlock s r).2.any Event.isConnect = true
      ↔ (r.connected = false ∧ s.wifiConnected = true
          ∧ 5000 < ulongSub (millis r.now1) s.lastMQTTHeartbeat) := by
  cases hc : r.connected <;> cases hw : s.wifiConnected <;>
    by_cases hb : 5000 < ulongSub (millis r.now1) s.lastMQTTHeartbeat <;>
    cases hh : r.connect.handshake <;>
    simp [reconnectBlock, hc, hw, hb, hh, connectMQTT, Event.isConnect]

theorem maintain_attempts (lib : ArduinoJson) (s : State) (r : TickReads) :
    (maintainMQTTConnection lib s r).2.any Event.isConnect = true
      ↔ (r.connected = false ∧ s.wifiConnected = true
          ∧ 5000 < ulongSub (millis r.now1) s.lastMQTTHeartbeat) := by
  rw [← reconnectBlock_attempts]
  simp [maintainMQTTConnection, heartbeatBlock_no_connect]

/-- C12 counterexample: a connected device whose heartbeat clock is at 0 is ticked at
uptime 1000 ms while `client.connected()` is false; the tick makes no reconnect attempt,
and afterwards `mqttConnected` is still true and `isConnected()` returns true. -/
theorem C12_counterexample_stale_flag :
    State.online.mqttConnected = true
      ∧ (failedTick 1000).connected = false
      ∧ (maintainMQTTConnection sampleJson State.online (failedTick 1000)).2.any
          Event.isConnect = false
      ∧ (maintainMQTTConnection sampleJson State.online (failedTick 1000)).1.mqttConnected
          = true
      ∧ isConnected (maintainMQTTConnection sampleJson State.online (failedTick 1000)).1
          = true := by
  decide

/-- C12 (amended): for a tick entered with `mqttConnected` true in which
`client.connected()` is false: when the link is up, more than 5000 ms have elapsed on
the heartbeat clock and the handshake of the reconnect attempt fails, then after the tick
`mqttConnected` is false and `isConnected()` returns false; when the link is down or no
more than 5000 ms have elapsed, the tick makes no reconnect attempt and `mqttConnected`
stays true. -/
theorem C12_session_loss (lib : ArduinoJson) (s : State) (r : TickReads)
    (hm : s.mqttConnected = true) (hc : r.connected = false) :
    (s.wifiConnected = true → 5000 < ulongSub (millis r.now1) s.lastMQTTHeartbeat →
        r.connect.handshake = false →
        (maintainMQTTConnection lib s r).1.mqttConnected = false
        ∧ isConnected (maintainMQTTConnection lib s r).1 = false)
      ∧ ((s.wifiConnected = false ∨ ¬ 5000 < ulongSub (millis r.now1) s.lastMQTTHeartbeat) →
        (maintainMQTTConnection lib s r).2.any Event.isConnect = false
        ∧ (maintainMQTTConnection lib s r).1.mqttConnected = true
        ∧ isConnected (maintainMQTTConnection lib s r).1 = s.wifiConnected) := by
  constructor
  · intro hw hb hh
    have e : (maintainMQTTConnection lib s r).1.mqttConnected = false := by
      rw [maintain_mqttConnected]
      simp [reconnectBlock, hc, hw, hb, hh, connectMQTT]
    exact ⟨e, by simp [isConnected, e]⟩
  · intro h
    have hno : (maintainMQTTConnection lib s r).2.any Event.isConnect = false := by
      rw [Bool.eq_false_iff]
      intro ha
      obtain ⟨_, hw, hb⟩ := (maintain_attempts lib s r).mp ha
      rcases h with h | h
      · rw [hw] at h; exact absurd h (by decide)
      · exact h hb
    have e : (reconnectBlock s r).1 = s := by
      rcases h with h | h
      · simp [reconnectBlock, h]
      · simp [reconnectBlock, h]
    refine ⟨hno, ?_, ?_⟩
    · rw [maintain_mqttConnected, e]; exact hm
    · simp [isConnected, maintain_mqttConnected, maintain_wifiConnected, e, hm]

/-- C12 witness: the same device ticked at uptime 6000 ms, with `client.connected()`
false and a failing handshake, ends the tick disconnected. -/
theorem C12_witness_failed_reconnect :
    (maintainMQTTConnection sampleJson State.online (failedTick 6000)).1.mqttConnected = false
      ∧ isConnected (maintainMQTTConnection sampleJson State.online (failedTick 6000)).1
          = false :=
  (C12_session_loss sampleJson State.online (failedTick 6000) rfl rfl).1 rfl (by decide) rfl

/-! ## Discovery messages -/

theorem publishDiscovery_advert (s : State) (ip : String) (t : Nat) :
    ∀ e ∈ publishDiscovery s ip t, e.isDiscovery = true → e.isRetainedAdvertisement := by
  intro e he _
  simp only [publishDiscovery, List.mem_singleton] at he
  exact ⟨_, he, by simp [JsonValue.get], by simp [JsonValue.get]⟩

theorem advert_of_not_discovery (l : List Event) (h : ∀ e ∈ l, e.isDiscovery = false) :
    ∀ e ∈ l, e.isDiscovery = true → e.isRetainedAdvertisement := by
  intro e he hd
  rw [h e he] at hd
  exact absurd hd (by decide)

theorem advert_nil : ∀ e ∈ ([] : List Event), e.isDiscovery = true → e.isRetainedAdvertisement :=
  fun _ he => absurd he (List.not_mem_nil _)

theorem publishStatus_not_discovery (s : State) (st d : String) (t : Nat) :
    ∀ e ∈ publishStatus s st d t, e.isDiscovery = false := by
  unfold publishStatus
  split_ifs <;> simp [Event.isDiscovery, JsonValue.containsKey]

theorem publishResponse_not_discovery (s : State) (c res m : String) (t : Nat) :
    ∀ e ∈ publishResponse s c res m t, e.isDiscovery = false := by
  unfold publishResponse
  split_ifs <;> simp [Event.isDiscovery, JsonValue.containsKey]

theorem connectMQTT_discovery (s : State) (r : ConnectReads) :
    ∀ e ∈ (connectMQTT s r).2.2, e.isDiscovery = true → e.isRetainedAdvertisement := by
  unfold connectMQTT
  split_ifs
  · exact advert_nil
  · simp only [List.forall_mem_append]
    refine ⟨⟨⟨?_, ?_⟩, publishDiscovery_advert _ _ _⟩,
      advert_of_not_discovery _ (publishStatus_not_discovery _ _ _ _)⟩
    · exact advert_of_not_discovery _ (by simp [Event.isDiscovery])
    · exact advert_of_not_discovery _ (by simp [Event.isDiscovery])
  · exact advert_of_not_discovery _ (by simp [Event.isDiscovery])

theorem advert_ite {c : Prop} [Decidable c] {l1 l2 : List Event}
    (h1 : ∀ e ∈ l1, e.isDiscovery = true → e.isRetainedAdvertisement)
    (h2 : ∀ e ∈ l2, e.isDiscovery = true → e.isRetainedAdvertisement) :
    ∀ e ∈ (if c then l1 else l2), e.isDiscovery = true → e.isRetainedAdvertisement := by
  split_ifs <;> assumption

theorem advert_append {l1 l2 : List Event}
    (h1 : ∀ e ∈ l1, e.isDiscovery = true → e.isRetainedAdvertisement)
    (h2 : ∀ e ∈ l2, e.isDiscovery = true → e.isRetainedAdvertisement) :
    ∀ e ∈ l1 ++ l2, e.isDiscovery = true → e.isRetainedAdvertisement :=
  List.forall_mem_append.mpr ⟨h1, h2⟩

theorem onMqttMessage_discovery (lib : ArduinoJson) (s : State) (topic message : String)
    (r : MessageReads) :
    ∀ e ∈ (onMqttMessage lib s topic message r).2,
      e.isDiscovery = true → e.isRetainedAdvertisement := by
  cases hdec : lib.deserializeJson 200 message
  · simp [onMqttMessage, hdec]
  · simp only [onMqttMessage, hdec]
    exact advert_append
      (advert_ite (advert_ite (publishDiscovery_advert _ _ _) advert_nil) advert_nil)
      (advert_ite
        (advert_append
          (advert_ite (advert_of_not_discovery _ (by simp [Event.isDiscovery])) advert_nil)
          (advert_ite (advert_of_not_discovery _ (publishResponse_not_discovery _ _ _ _ _))
            advert_nil))
        advert_nil)

theorem deliver_discovery (lib : ArduinoJson) (s : State) (inbox : List Frame) :
    ∀ e ∈ (deliver lib s inbox).2, e.isDiscovery = true → e.isRetainedAdvertisement := by
  induction inbox generalizing s with
  | nil => exact advert_nil
  | cons f rest ih =>
    simp only [deliver, List.forall_mem_append]
    exact ⟨onMqttMessage_discovery lib s _ _ _, ih _⟩

theorem reconnectBlock_discovery (s : State) (r : TickReads) :
    ∀ e ∈ (reconnectBlock s r).2, e.isDiscovery = true → e.isRetainedAdvertisement := by
  simp only [reconnectBlock]
  split_ifs
  · exact connectMQTT_discovery s r.connect
  · exact connectMQTT_discovery s r.connect
  · exact advert_nil
  · exact advert_nil

theorem advert_cons {e : Event} {l : List Event} (he : e.isDiscovery = false)
    (hl : ∀ x ∈ l, x.isDiscovery = true → x.isRetainedAdvertisement) :
    ∀ x ∈ e :: l, x.isDiscovery = true → x.isRetainedAdvertisement :=
  List.forall_mem_cons.mpr ⟨fun h => by rw [he] at h; exact absurd h (by decide), hl⟩

theorem heartbeatBlock_discovery (lib : ArduinoJson) (s : State) (r : TickReads) :
    ∀ e ∈ (heartbeatBlock lib s r).2, e.isDiscovery = true → e.isRetainedAdvertisement := by
  simp only [heartbeatBlock]
  split_ifs
  · exact advert_append (advert_cons rfl (deliver_discovery lib s _))
      (advert_of_not_discovery _ (publishStatus_not_discovery _ _ _ _))
  · exact advert_cons rfl (deliver_discovery lib s _)
  · exact advert_nil

theorem connectWiFi_events (s : State) (status : Nat → Bool) :
    (connectWiFi s status).2.2
      = Event.wifiBegin ssid password :: (connectWiFiLoop status 0).2 := by
  by_cases h : status ((connectWiFiLoop status 0).1 + 1) = true <;> simp [connectWiFi, h]

theorem connectWiFi_not_discovery (s : State) (status : Nat → Bool) :
    ∀ e ∈ (connectWiFi s status).2.2, e.isDiscovery = false := by
  obtain ⟨_, _, l3, _, _⟩ := connectWiFiLoop_spec status 20 0 (by omega)
  rw [connectWiFi_events, l3]
  intro e he
  rcases List.mem_cons.mp he with h | h
  · rw [h]; rfl
  · rw [List.eq_of_mem_replicate h]; rfl

theorem initConnectivity_discovery (s : State) (chipid : Nat) (status : Nat → Bool)
    (r : ConnectReads) :
    ∀ e ∈ (initConnectivity s chipid status r).2.2,
      e.isDiscovery = true → e.isRetainedAdvertisement := by
  simp only [initConnectivity]
  split_ifs
  · simp only [generateDeviceID, List.nil_append]
    exact advert_append (advert_of_not_discovery _ (connectWiFi_not_discovery _ _))
      (advert_cons rfl (connectMQTT_discovery _ r))
  · simp only [generateDeviceID, List.nil_append]
    exact advert_of_not_discovery _ (connectWiFi_not_discovery _ _)

/-- C17: every discovery message published, by `publishDiscovery` itself, by
`connectMQTT` on connection, by `onMqttMessage` on a discover request, by
`maintainMQTTConnection` (through either of them) or by `initConnectivity`, is sent to
the shared discovery topic with the retained flag set and carries `isAvailable = true`
and `type = "smart_dispenser"`. -/
theorem C17_discovery_retained_available (lib : ArduinoJson) (s : State) :
    (∀ ip t, ∃ doc, publishDiscovery s ip t = [Event.publish topic_discovery doc true]
        ∧ doc.get "isAvailable" = some (.bool true)
        ∧ doc.get "type" = some (.str "smart_dispenser")
        ∧ (Event.publish topic_discovery doc true).isDiscovery = true)
      ∧ (∀ r, ∀ e ∈ (connectMQTT s r).2.2,
          e.isDiscovery = true → e.isRetainedAdvertisement)
      ∧ (∀ topic message r, ∀ e ∈ (onMqttMessage lib s topic message r).2,
          e.isDiscovery = true → e.isRetainedAdvertisement)
      ∧ (∀ r, ∀ e ∈ (maintainMQTTConnection lib s r).2,
          e.isDiscovery = true → e.isRetainedAdvertisement)
      ∧ (∀ chipid status r, ∀ e ∈ (initConnectivity s chipid status r).2.2,
          e.isDiscovery = true → e.isRetainedAdvertisement) := by
  refine ⟨fun ip t => ⟨_, rfl, by simp [JsonValue.get], by simp [JsonValue.get],
      by simp [Event.isDiscovery, JsonValue.containsKey]⟩,
    connectMQTT_discovery s, onMqttMessage_discovery lib s, ?_, initConnectivity_discovery s⟩
  intro r
  exact advert_append (reconnectBlock_discovery s r) (heartbeatBlock_discovery lib _ r)

/-- C17 witness: the discovery message `connectMQTT` publishes on a successful
handshake is retained, on the discovery topic, with `isAvailable = true`. -/
theorem C17_witness_on_connect :
    (Event.publish topic_discovery
        (.obj [("deviceId", .str ""),
               ("name", .str "FIDO_Dispenser"),
               ("type", .str "smart_dispenser"),
               ("version", .str "1.0.0"),
               ("ip", .str "192.168.1.50"),
               ("timestamp", .int 10500),
               ("isAvailable", .bool true),
               ("batteryLevel", .int 100)])
        true) ∈ (connectMQTT State.linkUp (connectedReads 10500)).2.2
      ∧ (Event.publish topic_discovery
        (.obj [("deviceId", .str ""),
               ("name", .str "FIDO_Dispenser"),
               ("type", .str "smart_dispenser"),
               ("version", .str "1.0.0"),
               ("ip", .str "192.168.1.50"),
               ("timestamp", .int 10500),
               ("isAvailable", .bool true),
               ("batteryLevel", .int 100)])
        true).isRetainedAdvertisement := by
  have hmem : (Event.publish topic_discovery
        (.obj [("deviceId", .str ""),
               ("name", .str "FIDO_Dispenser"),
               ("type", .str "smart_dispenser"),
               ("version", .str "1.0.0"),
               ("ip", .str "192.168.1.50"),
               ("timestamp", .int 10500),
               ("isAvailable", .bool true),
               ("batteryLevel", .int 100)])
        true) ∈ (connectMQTT State.linkUp (connectedReads 10500)).2.2 := by
    simp [connectMQTT, State.linkUp, State.initial, connectedReads, publishDiscovery,
      device_name, millis, ULONG_MOD]
  exact ⟨hmem, (C17_discovery_retained_available sampleJson State.linkUp).2.1
    (connectedReads 10500) _ hmem (by simp [Event.isDiscovery, JsonValue.containsKey])⟩

/-! ## Heartbeat clock and boot -/

/-- C18 (evaluation of the code at the failing input): `initConnectivity` on a fresh
device, with the link up and a successful handshake at uptime 10500 ms, returns true
and leaves `lastMQTTHeartbeat` at 0; the maintenance tick at uptime 30001 ms then emits a
heartbeat, 19501 ms after the connection. -/
theorem C18_boot_leaves_heartbeat_clock :
    (initConnectivity State.initial 0x0123456789AB linkAlwaysUp (connectedReads 10500)).2.1
        = true
      ∧ (initConnectivity State.initial 0x0123456789AB linkAlwaysUp
          (connectedReads 10500)).1.mqttConnected = true
      ∧ (initConnectivity State.initial 0x0123456789AB linkAlwaysUp
          (connectedReads 10500)).1.lastMQTTHeartbeat = 0
      ∧ heartbeatTimes sampleJson
          (initConnectivity State.initial 0x0123456789AB linkAlwaysUp
            (connectedReads 10500)).1 [quietTick 30001] = [30001]
      ∧ 30001 < 10500 + 30000 := by
  have e : (initConnectivity State.initial 0x0123456789AB linkAlwaysUp
      (connectedReads 10500)).1
        = { (generateDeviceID State.initial 0x0123456789AB).1 with
            wifiConnected := true, mqttConnected := true } := by
    simp [initConnectivity, connectWiFi_ret, connectWiFi_state, linkAlwaysUp, connectMQTT,
      connectedReads]
  refine ⟨?_, by rw [e], by rw [e]; rfl, ?_, by decide⟩
  · simp [initConnectivity, connectWiFi_ret, connectWiFi_state, linkAlwaysUp, connectMQTT,
      connectedReads]
  · rw [e]
    simp [heartbeatTimes, maintainMQTTConnection, reconnectBlock, heartbeatBlock, quietTick,
      deliver, generateDeviceID, State.initial, millis, ulongSub, ULONG_MOD, publishStatus,
      Event.isHeartbeat, JsonValue.get]

/-! ## Own advertisement -/

/-- C19: when the commands topic differs from the discovery topic (as it does for every
generated id), a message received on the discovery topic whose content is a document
built by `publishDiscovery` (of this or of any other device), or any document without an
`action` member, or a text that fails to decode, makes `onMqttMessage` make no call at
all: nothing is published and the callback is not invoked. -/
theorem C19_own_advertisement_ignored (lib : ArduinoJson) (s : State) (message : String)
    (r : MessageReads) (hne : s.topic_commands ≠ topic_discovery) :
    (∀ (sender : State) (ip : String) (t : Nat) (topic : String) (doc : JsonValue)
        (retained : Bool),
        publishDiscovery sender ip t = [Event.publish topic doc retained] →
        lib.deserializeJson 200 message = some doc →
        onMqttMessage lib s topic_discovery message r = (s, []))
      ∧ (∀ doc, lib.deserializeJson 200 message = some doc → doc.get "action" = none →
          onMqttMessage lib s topic_discovery message r = (s, []))
      ∧ (lib.deserializeJson 200 message = none →
          onMqttMessage lib s topic_discovery message r = (s, []))
      ∧ (∀ (s0 : State) (chipid : Nat),
          (generateDeviceID s0 chipid).1.topic_commands ≠ topic_discovery) := by
  have hne' : ¬ topic_discovery = s.topic_commands := fun h => hne h.symm
  have key : ∀ doc, lib.deserializeJson 200 message = some doc → doc.get "action" = none →
      onMqttMessage lib s topic_discovery message r = (s, []) := by
    intro doc hdec ha
    simp [onMqttMessage, hdec, ha, hne', asString]
  refine ⟨?_, key, fun hdec => by simp [onMqttMessage, hdec],
    fun s0 chipid => generated_commands_topic_ne_discovery _⟩
  intro sender ip t topic doc retained hpub hdec
  apply key doc hdec
  simp only [publishDiscovery, List.cons.injEq, Event.publish.injEq, and_true] at hpub
  rw [← hpub.2.1]
  simp [JsonValue.get]

/-- C19 witness: a connected device that receives, on the discovery topic, its own
discovery message makes no call. -/
theorem C19_witness_own_message :
    onMqttMessage advertisementJson State.online topic_discovery advertisementText
        (sampleReads 10600) = (State.online, []) := by
  have hdec : advertisementJson.deserializeJson 200 advertisementText
      = some (.obj [("deviceId", .str "FIDO_123456789AB"),
                    ("name", .str "FIDO_Dispenser"),
                    ("type", .str "smart_dispenser"),
                    ("version", .str "1.0.0"),
                    ("ip", .str "192.168.1.50"),
                    ("timestamp", .int 10500),
                    ("isAvailable", .bool true),
                    ("batteryLevel", .int 100)]) := by
    simp [advertisementJson]
  exact (C19_own_advertisement_ignored advertisementJson State.online advertisementText
    (sampleReads 10600) (by decide)).1 State.online "192.168.1.50" 10500 _ _ _ rfl hdec

/-! ## Clock wraparound -/

theorem ulongSub_wrap (last e : Nat) (hl : last < 4294967296) (he : e < 4294967296) :
    ulongSub ((last + e) % 4294967296) last = e := by
  simp only [ulongSub, ULONG_MOD]
  omega

theorem ulongSub_millis_add (T e : Nat) (he : e < 4294967296) :
    ulongSub (millis (T + e)) (millis T) = e := by
  simp only [ulongSub, millis, ULONG_MOD]
  omega

/-- C20: for 32-bit timestamps `last` and `now = (last + e) mod 2^32` with true elapsed
time `e < 2^32`, the unsigned difference the maintenance tick computes is `e`, also
when `now < last`; so a tick entered `e` ms after the uptime at which the heartbeat
clock was written attempts a reconnect exactly when the session is down, the link is up
and `e > 5000`, and emits a heartbeat exactly when `mqttConnected` is true and
`e > 30000`. -/
theorem C20_wraparound (lib : ArduinoJson) (s : State) (r : TickReads) (last T e : Nat)
    (hl : last < 4294967296) (he : e < 4294967296)
    (hs : s.lastMQTTHeartbeat = millis T) :
    ulongSub ((last + e) % 4294967296) last = e
      ∧ (r.now1 = T + e →
          ((reconnectBlock s r).2.any Event.isConnect = true
            ↔ (r.connected = false ∧ s.wifiConnected = true ∧ 5000 < e)))
      ∧ (r.now2 = T + e →
          ((heartbeatBlock lib s r).2.any Event.isHeartbeat = true
            ↔ (s.mqttConnected = true ∧ 30000 < e))) := by
  refine ⟨ulongSub_wrap last e hl he, fun h1 => ?_, fun h2 => ?_⟩
  · rw [reconnectBlock_attempts, h1, hs, ulongSub_millis_add T e he]
  · rw [heartbeatBlock_emits, h2, hs, ulongSub_millis_add T e he]

/-- C20 witness: the heartbeat clock was written at reading 4294966296 (1000 ms before
the wrap) and the tick runs 31000 ms later, at reading 30000: the difference is 31000
and the heartbeat is emitted. -/
theorem C20_witness_across_wrap :
    (4294966296 + 31000) % 4294967296 = 30000
      ∧ ulongSub ((4294966296 + 31000) % 4294967296) 4294966296 = 31000
      ∧ (heartbeatBlock sampleJson { State.online with lastMQTTHeartbeat := 4294966296 }
          (quietTick (4294966296 + 31000))).2.any Event.isHeartbeat = true := by
  have h := C20_wraparound sampleJson { State.online with lastMQTTHeartbeat := 4294966296 }
    (quietTick (4294966296 + 31000)) 4294966296 4294966296 31000 (by norm_num) (by norm_num)
    (by decide)
  exact ⟨by norm_num, h.1, (h.2.2 rfl).mpr ⟨rfl, by norm_num⟩⟩

end Fido
